import Mathlib

/-!
Verification of the pose-normalization and template-matching pipeline of
an ASL finger-spelling recognizer.  The definitions below are shallow
embeddings of the Python functions in
`backend/classifier_tools/live_hand_tracker.py`,
`backend/main.py` and `aslalphabet/hand_detection.py`.

Python floats are modelled as exact numbers: rationals (`ℚ`) wherever the
code only adds, subtracts, multiplies, divides and compares, and reals
(`ℝ`) where square roots or trigonometric functions appear.  `float('inf')`
in the distance domain is modelled as `⊤ : WithTop ℝ`.  A separate model
(`Fl`, further below) captures IEEE-style NaN/infinity propagation for the
non-finite-input claim.
-/

set_option linter.unusedVariables false

/-- One hand landmark as built by `process_landmarks` in
`live_hand_tracker.py` (and as received by the API in `main.py`): a
landmark id, its MediaPipe name, raw pixel coordinates and edge-to-edge
scaled coordinates.  The coordinate type is a parameter so the matcher
can work over `ℚ` while the rotation step works over `ℝ`. -/
structure Landmark (α : Type) where
  landmark_id : ℕ
  landmark_name : String
  x_raw : α
  y_raw : α
  z_raw : α
  x_scaled : α
  y_scaled : α
  z_scaled : α
deriving DecidableEq

/-- One detected hand: index, left/right label, detector confidence and
its landmark list. -/
structure Hand (α : Type) where
  hand_index : ℕ
  hand_label : String
  confidence : α
  landmarks : List (Landmark α)
deriving DecidableEq

/-- The per-frame data record (`live_landmarks_data` / `asl_data`): the
list of detected hands.  The surrounding metadata (timestamp, image size,
scaling info) is irrelevant to the matcher and omitted. -/
structure HandsData (α : Type) where
  hands : List (Hand α)
deriving DecidableEq

/-- Python truthiness of an optional hand label: `None` and the empty
string are falsy, every other string is truthy. -/
def labelTruthy : Option String → Bool
  | none => false
  | some s => !s.isEmpty

/-- The guard `live_hand_label and asl_hand_label and live_hand_label !=
asl_hand_label` of `find_closest_asl_match`: both labels present (truthy)
and different. -/
def labelMismatch (live asl : Option String) : Bool :=
  labelTruthy live && labelTruthy asl && live != asl

/-- The loop body sum of `calculate_rms_distance`: the sum over
corresponding landmark pairs of the squared planar distance of their
scaled coordinates. -/
def totalDistanceSquared (live_points asl_points : List (Landmark ℚ)) : ℚ :=
  ((live_points.zip asl_points).map
    (fun p => (p.1.x_scaled - p.2.x_scaled) ^ 2 +
              (p.1.y_scaled - p.2.y_scaled) ^ 2)).sum

/-- `calculate_rms_distance` from `live_hand_tracker.py`: `float('inf')`
(modelled as `⊤`) when either pose has no hands, when the landmark counts
differ, or when there are no landmark pairs; otherwise the square root of
the mean squared planar distance of the scaled coordinates of the first
hands.  The first argument is the `hands` list of the live data, the
second the reference record. -/
noncomputable def calculate_rms_distance (live_landmarks : List (Hand ℚ))
    (asl_landmarks : HandsData ℚ) : WithTop ℝ :=
  match live_landmarks.head?, asl_landmarks.hands.head? with
  | some live_hand, some asl_hand =>
    let live_points := live_hand.landmarks
    let asl_points := asl_hand.landmarks
    if live_points.length = asl_points.length then
      if live_points.length = 0 then ⊤
      else ((Real.sqrt (((totalDistanceSquared live_points asl_points : ℚ) : ℝ) /
              (live_points.length : ℝ))) : ℝ)
    else ⊤
  | _, _ => ⊤

/-- Multiplication of a possibly-infinite distance by the finite penalty
factor `1.1`: a finite distance is scaled, infinity stays infinity (as
with Python floats). -/
noncomputable def penalized (d : WithTop ℝ) : WithTop ℝ :=
  WithTop.map (fun x => x * (11 / 10 : ℝ)) d

/-- The hand label of a reference record, `asl_data['hands'][0]['hand_label']
if asl_data['hands'] else None`. -/
def aslLabel (asl : HandsData ℚ) : Option String :=
  (asl.hands.head?).map Hand.hand_label

/-- The orientation-adjusted distance computed in the loop of
`find_closest_asl_match`: the raw RMS distance, multiplied by `1.1` when
both orientation labels are present and disagree. -/
noncomputable def adjustedDistance (live_hand_label : Option String)
    (live_hands : List (Hand ℚ)) (asl_data : HandsData ℚ) : WithTop ℝ :=
  let distance := calculate_rms_distance live_hands asl_data
  if labelMismatch live_hand_label (aslLabel asl_data) then penalized distance
  else distance

/-- One iteration of the selection loop of `find_closest_asl_match`:
replace the best `(match, distance, label)` triple when the adjusted
distance strictly improves on the best distance so far. -/
noncomputable def matchStep (live_hand_label : Option String)
    (live_hands : List (Hand ℚ))
    (best : Option String × WithTop ℝ × Option String)
    (entry : String × HandsData ℚ) : Option String × WithTop ℝ × Option String :=
  let adjusted_distance := adjustedDistance live_hand_label live_hands entry.2
  if adjusted_distance < best.2.1 then (some entry.1, adjusted_distance, aslLabel entry.2)
  else best

/-- `find_closest_asl_match` from `live_hand_tracker.py`.  The reference
library (the module-level dict `asl_alphabet_data`) is passed explicitly
as an association list in its iteration order.  Returns the best letter,
its adjusted distance, and the matched reference's hand label, or
`(none, ⊤, none)` when the query has no hands or nothing improves on the
initial infinite distance. -/
noncomputable def find_closest_asl_match (live_landmarks_data : HandsData ℚ)
    (asl_alphabet_data : List (String × HandsData ℚ)) :
    Option String × WithTop ℝ × Option String :=
  match live_landmarks_data.hands with
  | [] => (none, ⊤, none)
  | live_hand :: _ =>
    asl_alphabet_data.foldl
      (matchStep (some live_hand.hand_label) live_landmarks_data.hands)
      (none, ⊤, none)

/-- Structural condition under which the first hands of the two inputs
can be compared: both present, equal nonzero landmark counts. -/
def posesComparable (live : List (Hand ℚ)) (asl : HandsData ℚ) : Bool :=
  match live.head?, asl.hands.head? with
  | some lh, some ah => lh.landmarks.length == ah.landmarks.length &&
      !(lh.landmarks.length == 0)
  | _, _ => false

/-- Minimum of the adjusted distances of a library slice, seeded with the
initial infinite best distance. -/
noncomputable def minAdjusted (lbl : Option String) (live : List (Hand ℚ))
    (lib : List (String × HandsData ℚ)) : WithTop ℝ :=
  (lib.map (fun entry => adjustedDistance lbl live entry.2)).foldr min ⊤

/-- Two-argument arctangent `math.atan2 dy dx`, modelled as the argument
of the complex number `dx + dy i`. -/
noncomputable def atan2 (dy dx : ℝ) : ℝ := Complex.arg ⟨dx, dy⟩

/-- One iteration of the wrist/reference scan at the top of
`normalize_hand_rotation`: record the landmark when its id is 0 (wrist)
or 9 (reference). -/
def wristRefStep {α : Type} (acc : Option (Landmark α) × Option (Landmark α))
    (l : Landmark α) : Option (Landmark α) × Option (Landmark α) :=
  if l.landmark_id = 0 then (some l, acc.2)
  else if l.landmark_id = 9 then (acc.1, some l)
  else acc

/-- The scan at the top of `normalize_hand_rotation` that finds the wrist
(landmark id 0) and the rotation-reference landmark (id 9); the Python
loop keeps the last matching landmark of each id. -/
def findWristAndRef {α : Type} (landmarks_data : List (Landmark α)) :
    Option (Landmark α) × Option (Landmark α) :=
  landmarks_data.foldl wristRefStep (none, none)

/-- `normalize_hand_rotation` from `live_hand_tracker.py`: rotate every
landmark's scaled coordinates about the wrist by the angle taking the
wrist-to-reference direction to straight up, then place the wrist at
`(1000, 2000)`.  Returns the input unchanged when the wrist or the
reference landmark is missing, or when both share one scaled position. -/
noncomputable def normalize_hand_rotation (landmarks_data : List (Landmark ℝ)) :
    List (Landmark ℝ) :=
  match findWristAndRef landmarks_data with
  | (some wrist_landmark, some index_tip_landmark) =>
    let wrist_x := wrist_landmark.x_scaled
    let wrist_y := wrist_landmark.y_scaled
    let dx := index_tip_landmark.x_scaled - wrist_x
    let dy := index_tip_landmark.y_scaled - wrist_y
    if dx = 0 ∧ dy = 0 then landmarks_data
    else
      let rotation_to_vertical := -(Real.pi / 2) - atan2 dy dx
      let cos_angle := Real.cos rotation_to_vertical
      let sin_angle := Real.sin rotation_to_vertical
      landmarks_data.map (fun l =>
        let rel_x := l.x_scaled - wrist_x
        let rel_y := l.y_scaled - wrist_y
        { l with
          x_scaled := rel_x * cos_angle - rel_y * sin_angle + 1000,
          y_scaled := rel_x * sin_angle + rel_y * cos_angle + 2000 })
  | _ => landmarks_data

/-- A 3-component record for the wrist-relative coordinate dictionaries
stored by `hand_detection.py`. -/
structure Vec3 (α : Type) where
  x : α
  y : α
  z : α
deriving DecidableEq

/-- One landmark as stored by `hand_detection.py`: like `Landmark` but
with `x_original`-style raw names and the two wrist-relative records. -/
structure LandmarkHD (α : Type) where
  landmark_id : ℕ
  landmark_name : String
  x_original : α
  y_original : α
  z_original : α
  x_scaled : α
  y_scaled : α
  z_scaled : α
  relative_to_wrist_original : Vec3 α
  relative_to_wrist_scaled : Vec3 α
deriving DecidableEq

namespace HandDetection

/-- One iteration of the wrist/reference scan of `hand_detection.py`. -/
def wristRefStep {α : Type} (acc : Option (LandmarkHD α) × Option (LandmarkHD α))
    (l : LandmarkHD α) : Option (LandmarkHD α) × Option (LandmarkHD α) :=
  if l.landmark_id = 0 then (some l, acc.2)
  else if l.landmark_id = 9 then (acc.1, some l)
  else acc

/-- The wrist/reference scan of `normalize_hand_rotation` in
`hand_detection.py` (identical loop, over the richer landmark record). -/
def findWristAndRef {α : Type} (landmarks_data : List (LandmarkHD α)) :
    Option (LandmarkHD α) × Option (LandmarkHD α) :=
  landmarks_data.foldl wristRefStep (none, none)

/-- `normalize_hand_rotation` from `hand_detection.py`: as the tracker
version, but it additionally rewrites the x and y components of the
wrist-relative scaled record to the rotated wrist-relative position. -/
noncomputable def normalize_hand_rotation (landmarks_data : List (LandmarkHD ℝ)) :
    List (LandmarkHD ℝ) :=
  match findWristAndRef landmarks_data with
  | (some wrist_landmark, some index_tip_landmark) =>
    let wrist_x := wrist_landmark.x_scaled
    let wrist_y := wrist_landmark.y_scaled
    let dx := index_tip_landmark.x_scaled - wrist_x
    let dy := index_tip_landmark.y_scaled - wrist_y
    if dx = 0 ∧ dy = 0 then landmarks_data
    else
      let rotation_to_vertical := -(Real.pi / 2) - atan2 dy dx
      let cos_angle := Real.cos rotation_to_vertical
      let sin_angle := Real.sin rotation_to_vertical
      landmarks_data.map (fun l =>
        let rotated_x := (l.x_scaled - wrist_x) * cos_angle -
          (l.y_scaled - wrist_y) * sin_angle
        let rotated_y := (l.x_scaled - wrist_x) * sin_angle +
          (l.y_scaled - wrist_y) * cos_angle
        { l with
          x_scaled := rotated_x + 1000,
          y_scaled := rotated_y + 2000,
          relative_to_wrist_scaled :=
            { l.relative_to_wrist_scaled with x := rotated_x, y := rotated_y } })
  | _ => landmarks_data

end HandDetection

/-- A landmark as produced by the MediaPipe detector and consumed by
`calculate_edge_to_edge_scaling`: coordinates normalized to the unit
square plus a wrist-relative depth. -/
structure MPLandmark where
  x : ℚ
  y : ℚ
  z : ℚ
deriving DecidableEq

/-- The `scaling_info` dictionary shared by all three scaling-code
sites. -/
structure ScalingInfo where
  min_x : ℚ
  max_x : ℚ
  min_y : ℚ
  max_y : ℚ
  scale_factor : ℚ
  offset_x : ℚ
  offset_y : ℚ
  target_size : ℚ
deriving DecidableEq

/-- Python `min` over a nonempty list, given as head and tail. -/
def listMin (x : ℚ) (xs : List ℚ) : ℚ := xs.foldl min x

/-- Python `max` over a nonempty list, given as head and tail. -/
def listMax (x : ℚ) (xs : List ℚ) : ℚ := xs.foldl max x

/-- `min_x`: raw bounding-box minimum of the pixel coordinates
`landmark.x * image_width` in `calculate_edge_to_edge_scaling`. -/
def rawMinX (l0 : MPLandmark) (rest : List MPLandmark) (W : ℚ) : ℚ :=
  listMin (l0.x * W) (rest.map fun l => l.x * W)

/-- `max_x`: raw bounding-box maximum of the pixel x coordinates. -/
def rawMaxX (l0 : MPLandmark) (rest : List MPLandmark) (W : ℚ) : ℚ :=
  listMax (l0.x * W) (rest.map fun l => l.x * W)

/-- `min_y`: raw bounding-box minimum of the pixel y coordinates. -/
def rawMinY (l0 : MPLandmark) (rest : List MPLandmark) (H : ℚ) : ℚ :=
  listMin (l0.y * H) (rest.map fun l => l.y * H)

/-- `max_y`: raw bounding-box maximum of the pixel y coordinates. -/
def rawMaxY (l0 : MPLandmark) (rest : List MPLandmark) (H : ℚ) : ℚ :=
  listMax (l0.y * H) (rest.map fun l => l.y * H)

/-- `x_range = max_x - min_x` on the raw box. -/
def xRange (l0 : MPLandmark) (rest : List MPLandmark) (W : ℚ) : ℚ :=
  rawMaxX l0 rest W - rawMinX l0 rest W

/-- `y_range = max_y - min_y` on the raw box. -/
def yRange (l0 : MPLandmark) (rest : List MPLandmark) (H : ℚ) : ℚ :=
  rawMaxY l0 rest H - rawMinY l0 rest H

/-- `padding_x = x_range * 0.1 if x_range > 0 else 10`. -/
def paddingX (l0 : MPLandmark) (rest : List MPLandmark) (W : ℚ) : ℚ :=
  if 0 < xRange l0 rest W then xRange l0 rest W * (1 / 10) else 10

/-- `padding_y = y_range * 0.1 if y_range > 0 else 10`. -/
def paddingY (l0 : MPLandmark) (rest : List MPLandmark) (H : ℚ) : ℚ :=
  if 0 < yRange l0 rest H then yRange l0 rest H * (1 / 10) else 10

/-- Left edge of the padded box, `min_x - padding_x`. -/
def padMinX (l0 : MPLandmark) (rest : List MPLandmark) (W : ℚ) : ℚ :=
  rawMinX l0 rest W - paddingX l0 rest W

/-- Right edge of the padded box, `max_x + padding_x`. -/
def padMaxX (l0 : MPLandmark) (rest : List MPLandmark) (W : ℚ) : ℚ :=
  rawMaxX l0 rest W + paddingX l0 rest W

/-- Top edge of the padded box, `min_y - padding_y`. -/
def padMinY (l0 : MPLandmark) (rest : List MPLandmark) (H : ℚ) : ℚ :=
  rawMinY l0 rest H - paddingY l0 rest H

/-- Bottom edge of the padded box, `max_y + padding_y`. -/
def padMaxY (l0 : MPLandmark) (rest : List MPLandmark) (H : ℚ) : ℚ :=
  rawMaxY l0 rest H + paddingY l0 rest H

/-- `scale_x = target_size / (max_x - min_x) if (max_x - min_x) > 0 else 1`
on the padded box. -/
def scaleX (l0 : MPLandmark) (rest : List MPLandmark) (W : ℚ) : ℚ :=
  if 0 < padMaxX l0 rest W - padMinX l0 rest W then
    2000 / (padMaxX l0 rest W - padMinX l0 rest W)
  else 1

/-- `scale_y` on the padded box. -/
def scaleY (l0 : MPLandmark) (rest : List MPLandmark) (H : ℚ) : ℚ :=
  if 0 < padMaxY l0 rest H - padMinY l0 rest H then
    2000 / (padMaxY l0 rest H - padMinY l0 rest H)
  else 1

/-- `scale_factor = min(scale_x, scale_y)`. -/
def scaleFactor (l0 : MPLandmark) (rest : List MPLandmark) (W H : ℚ) : ℚ :=
  min (scaleX l0 rest W) (scaleY l0 rest H)

/-- `offset_x = (target_size - scaled_width) / 2`. -/
def offsetX (l0 : MPLandmark) (rest : List MPLandmark) (W H : ℚ) : ℚ :=
  (2000 - (padMaxX l0 rest W - padMinX l0 rest W) * scaleFactor l0 rest W H) / 2

/-- `offset_y = (target_size - scaled_height) / 2`. -/
def offsetY (l0 : MPLandmark) (rest : List MPLandmark) (W H : ℚ) : ℚ :=
  (2000 - (padMaxY l0 rest H - padMinY l0 rest H) * scaleFactor l0 rest W H) / 2

/-- `calculate_edge_to_edge_scaling` from `live_hand_tracker.py`:
`None` for an empty landmark list, otherwise the scaling frame built from
the 10%-padded raw bounding box of the pixel coordinates.  The Python
locals are the named definitions above. -/
def calculate_edge_to_edge_scaling :
    List MPLandmark → ℚ → ℚ → Option ScalingInfo
  | [], _, _ => none
  | l0 :: rest, W, H =>
    some { min_x := padMinX l0 rest W, max_x := padMaxX l0 rest W,
           min_y := padMinY l0 rest H, max_y := padMaxY l0 rest H,
           scale_factor := scaleFactor l0 rest W H,
           offset_x := offsetX l0 rest W H, offset_y := offsetY l0 rest W H,
           target_size := 2000 }

/-- The per-landmark scaling application of `process_landmarks` in
`live_hand_tracker.py` (and of `process_landmarks_for_classifier` in
`main.py`): map raw pixel coordinates into the canonical square using a
scaling frame, or leave them unchanged when no frame is available. -/
def applyScaling (scaling_info : Option ScalingInfo) (x_raw y_raw z_raw : ℚ) :
    ℚ × ℚ × ℚ :=
  match scaling_info with
  | some si =>
      ((x_raw - si.min_x) * si.scale_factor + si.offset_x,
       (y_raw - si.min_y) * si.scale_factor + si.offset_y,
       z_raw * si.scale_factor)
  | none => (x_raw, y_raw, z_raw)

/-- The inline bounding-box and scale computation of
`process_landmarks_for_classifier` in `main.py` (the per-request API
path): the box is the raw min/max box of the request's `x_raw`/`y_raw`
values with no padding added, and the scale fits that raw box into the
2000-square.  `None` models the precondition of Python `min` that the
landmark list be nonempty. -/
def apiScalingInfo : List (Landmark ℚ) → Option ScalingInfo
  | [] => none
  | l0 :: rest =>
    let min_x := listMin l0.x_raw (rest.map fun l => l.x_raw)
    let max_x := listMax l0.x_raw (rest.map fun l => l.x_raw)
    let min_y := listMin l0.y_raw (rest.map fun l => l.y_raw)
    let max_y := listMax l0.y_raw (rest.map fun l => l.y_raw)
    let scale_x := if max_x ≠ min_x then 2000 / (max_x - min_x) else 1
    let scale_y := if max_y ≠ min_y then 2000 / (max_y - min_y) else 1
    let scale_factor := min scale_x scale_y
    some { min_x := min_x, max_x := max_x, min_y := min_y, max_y := max_y,
           scale_factor := scale_factor,
           offset_x := (2000 - (max_x - min_x) * scale_factor) / 2,
           offset_y := (2000 - (max_y - min_y) * scale_factor) / 2,
           target_size := 2000 }

namespace HandDetection

/-- The bounding-box and scaling computation of
`detect_hands_and_save_landmarks` in `hand_detection.py`, over the
collected pixel coordinate lists: 10% padding is added unconditionally
(a zero range gives zero padding and the scale falls back to 1); with no
collected coordinates a fixed fallback frame is used. -/
def scalingInfo (all_x_coords all_y_coords : List ℚ) (w h : ℚ) : ScalingInfo :=
  match all_x_coords, all_y_coords with
  | x0 :: xs, y0 :: ys =>
    let min_x := listMin x0 xs
    let max_x := listMax x0 xs
    let min_y := listMin y0 ys
    let max_y := listMax y0 ys
    let padding_x := (max_x - min_x) * (1 / 10)
    let padding_y := (max_y - min_y) * (1 / 10)
    let pmin_x := min_x - padding_x
    let pmax_x := max_x + padding_x
    let pmin_y := min_y - padding_y
    let pmax_y := max_y + padding_y
    let scale_x := if 0 < pmax_x - pmin_x then 2000 / (pmax_x - pmin_x) else 1
    let scale_y := if 0 < pmax_y - pmin_y then 2000 / (pmax_y - pmin_y) else 1
    let scale_factor := min scale_x scale_y
    { min_x := pmin_x, max_x := pmax_x, min_y := pmin_y, max_y := pmax_y,
      scale_factor := scale_factor,
      offset_x := (2000 - (pmax_x - pmin_x) * scale_factor) / 2,
      offset_y := (2000 - (pmax_y - pmin_y) * scale_factor) / 2,
      target_size := 2000 }
  | _, _ =>
    { min_x := 0, max_x := w, min_y := 0, max_y := h, scale_factor := 1,
      offset_x := 0, offset_y := 0, target_size := 2000 }

end HandDetection

/-- An IEEE-754-style float value for the non-finite-input analysis: a
finite real, one of the two infinities, or NaN. -/
inductive Fl where
  | fin (x : ℝ)
  | inf
  | ninf
  | nan

namespace Fl

/-- Float addition: NaN propagates, opposite infinities give NaN. -/
def add : Fl → Fl → Fl
  | nan, _ => nan
  | _, nan => nan
  | inf, ninf => nan
  | ninf, inf => nan
  | inf, _ => inf
  | _, inf => inf
  | ninf, _ => ninf
  | _, ninf => ninf
  | fin x, fin y => fin (x + y)

/-- Float subtraction: NaN propagates, like-signed infinities give NaN. -/
def sub : Fl → Fl → Fl
  | nan, _ => nan
  | _, nan => nan
  | inf, inf => nan
  | ninf, ninf => nan
  | inf, _ => inf
  | _, inf => ninf
  | ninf, _ => ninf
  | _, ninf => inf
  | fin x, fin y => fin (x - y)

/-- Float multiplication: NaN propagates, infinity times zero is NaN,
infinities follow the sign rules. -/
noncomputable def mul : Fl → Fl → Fl
  | nan, _ => nan
  | _, nan => nan
  | inf, inf => inf
  | inf, ninf => ninf
  | ninf, inf => ninf
  | ninf, ninf => inf
  | inf, fin y => if 0 < y then inf else if y < 0 then ninf else nan
  | fin x, inf => if 0 < x then inf else if x < 0 then ninf else nan
  | ninf, fin y => if 0 < y then ninf else if y < 0 then inf else nan
  | fin x, ninf => if 0 < x then ninf else if x < 0 then inf else nan
  | fin x, fin y => fin (x * y)

/-- Float division for the mean computation: NaN propagates, infinity
over infinity is NaN, a finite value over an infinity is zero, division
by zero follows the IEEE sign rules. -/
noncomputable def div : Fl → Fl → Fl
  | nan, _ => nan
  | _, nan => nan
  | inf, inf => nan
  | inf, ninf => nan
  | ninf, inf => nan
  | ninf, ninf => nan
  | inf, fin y => if y < 0 then ninf else inf
  | ninf, fin y => if y < 0 then inf else ninf
  | fin _, inf => fin 0
  | fin _, ninf => fin 0
  | fin x, fin y =>
    if y = 0 then (if x = 0 then nan else if 0 < x then inf else ninf)
    else fin (x / y)

/-- Float square root: NaN for NaN and for negative inputs (including
negative infinity), infinity for infinity. -/
noncomputable def sqrtF : Fl → Fl
  | nan => nan
  | inf => inf
  | ninf => nan
  | fin x => if x < 0 then nan else fin (Real.sqrt x)

/-- The float comparison `a < b`: always false when either side is NaN. -/
noncomputable def ltF : Fl → Fl → Bool
  | nan, _ => false
  | _, nan => false
  | ninf, ninf => false
  | ninf, _ => true
  | _, ninf => false
  | inf, _ => false
  | fin _, inf => true
  | fin x, fin y => decide (x < y)

/-- NaN test. -/
def isNan : Fl → Bool
  | nan => true
  | _ => false

end Fl

/-- The loop sum of `calculate_rms_distance` in float semantics: a left
fold of float additions of the squared planar distances, starting from
zero (`total_distance_squared = 0; total_distance_squared += ...`). -/
noncomputable def totalDistanceSquaredF (live_points asl_points : List (Landmark Fl)) : Fl :=
  ((live_points.zip asl_points).map
    (fun p =>
      Fl.add (Fl.mul (Fl.sub p.1.x_scaled p.2.x_scaled) (Fl.sub p.1.x_scaled p.2.x_scaled))
             (Fl.mul (Fl.sub p.1.y_scaled p.2.y_scaled) (Fl.sub p.1.y_scaled p.2.y_scaled)))).foldl
    Fl.add (Fl.fin 0)

/-- `calculate_rms_distance` in float semantics, for the NaN-propagation
claim: same guard structure as the exact model, with IEEE arithmetic on
the coordinates. -/
noncomputable def calculate_rms_distanceF (live_landmarks : List (Hand Fl))
    (asl_landmarks : HandsData Fl) : Fl :=
  match live_landmarks.head?, asl_landmarks.hands.head? with
  | some live_hand, some asl_hand =>
    if live_hand.landmarks.length = asl_hand.landmarks.length then
      if live_hand.landmarks.length = 0 then Fl.inf
      else Fl.sqrtF (Fl.div
        (totalDistanceSquaredF live_hand.landmarks asl_hand.landmarks)
        (Fl.fin (live_hand.landmarks.length : ℝ)))
    else Fl.inf
  | _, _ => Fl.inf

/-- The reference hand label in the float model. -/
def aslLabelF (asl : HandsData Fl) : Option String :=
  (asl.hands.head?).map Hand.hand_label

/-- The orientation-adjusted distance in float semantics: the raw float
distance, times `1.1` on a label mismatch. -/
noncomputable def adjustedDistanceF (live_hand_label : Option String)
    (live_hands : List (Hand Fl)) (asl_data : HandsData Fl) : Fl :=
  let distance := calculate_rms_distanceF live_hands asl_data
  if labelMismatch live_hand_label (aslLabelF asl_data) then
    Fl.mul distance (Fl.fin (11 / 10)) else distance

/-- One iteration of the selection loop in float semantics, using the
float comparison (which rejects NaN on either side). -/
noncomputable def matchStepF (live_hand_label : Option String)
    (live_hands : List (Hand Fl))
    (best : Option String × Fl × Option String)
    (entry : String × HandsData Fl) : Option String × Fl × Option String :=
  let adjusted_distance := adjustedDistanceF live_hand_label live_hands entry.2
  if Fl.ltF adjusted_distance best.2.1 then
    (some entry.1, adjusted_distance, aslLabelF entry.2)
  else best

/-- `find_closest_asl_match` in float semantics. -/
noncomputable def find_closest_asl_matchF (live_landmarks_data : HandsData Fl)
    (asl_alphabet_data : List (String × HandsData Fl)) :
    Option String × Fl × Option String :=
  match live_landmarks_data.hands with
  | [] => (none, Fl.inf, none)
  | live_hand :: _ =>
    asl_alphabet_data.foldl
      (matchStepF (some live_hand.hand_label) live_landmarks_data.hands)
      (none, Fl.inf, none)

/-- Whether the first hand of a query carries a NaN scaled planar
coordinate. -/
def hasNanScaled (q : HandsData Fl) : Bool :=
  match q.hands.head? with
  | some h => h.landmarks.any (fun l => l.x_scaled.isNan || l.y_scaled.isNan)
  | none => false

/-- The per-landmark update of the non-degenerate branch of
`normalize_hand_rotation`: rotate about the wrist by the angle taking the
wrist-to-reference direction straight up, then translate the wrist to
`(1000, 2000)`. -/
noncomputable def rotMap (w r : Landmark ℝ) (l : Landmark ℝ) : Landmark ℝ :=
  let dx := r.x_scaled - w.x_scaled
  let dy := r.y_scaled - w.y_scaled
  let rotation_to_vertical := -(Real.pi / 2) - atan2 dy dx
  let cos_angle := Real.cos rotation_to_vertical
  let sin_angle := Real.sin rotation_to_vertical
  { l with
    x_scaled := (l.x_scaled - w.x_scaled) * cos_angle -
      (l.y_scaled - w.y_scaled) * sin_angle + 1000,
    y_scaled := (l.x_scaled - w.x_scaled) * sin_angle +
      (l.y_scaled - w.y_scaled) * cos_angle + 2000 }

/-- The per-landmark update of the non-degenerate branch of the
`hand_detection.py` rotation, which also rewrites the planar components
of the wrist-relative scaled record. -/
noncomputable def rotMapHD (w r : LandmarkHD ℝ) (l : LandmarkHD ℝ) : LandmarkHD ℝ :=
  let dx := r.x_scaled - w.x_scaled
  let dy := r.y_scaled - w.y_scaled
  let rotation_to_vertical := -(Real.pi / 2) - atan2 dy dx
  let cos_angle := Real.cos rotation_to_vertical
  let sin_angle := Real.sin rotation_to_vertical
  let rotated_x := (l.x_scaled - w.x_scaled) * cos_angle -
    (l.y_scaled - w.y_scaled) * sin_angle
  let rotated_y := (l.x_scaled - w.x_scaled) * sin_angle +
    (l.y_scaled - w.y_scaled) * cos_angle
  { l with
    x_scaled := rotated_x + 1000,
    y_scaled := rotated_y + 2000,
    relative_to_wrist_scaled :=
      { l.relative_to_wrist_scaled with x := rotated_x, y := rotated_y } }

/-- Concrete rational landmark with equal raw and scaled coordinates,
for witnesses. -/
def mkLm (i : ℕ) (x y : ℚ) : Landmark ℚ :=
  { landmark_id := i, landmark_name := "LM", x_raw := x, y_raw := y, z_raw := 0,
    x_scaled := x, y_scaled := y, z_scaled := 0 }

/-- Concrete rational hand for witnesses. -/
def mkHand (lbl : String) (ls : List (Landmark ℚ)) : Hand ℚ :=
  { hand_index := 0, hand_label := lbl, confidence := 1, landmarks := ls }

/-- Concrete real landmark for witnesses of the rotation claims. -/
def mkLmR (i : ℕ) (x y : ℝ) : Landmark ℝ :=
  { landmark_id := i, landmark_name := "LM", x_raw := x, y_raw := y, z_raw := 0,
    x_scaled := x, y_scaled := y, z_scaled := 0 }

/-- Concrete `hand_detection.py`-style landmark for witnesses. -/
def mkLmHD (i : ℕ) (x y : ℝ) : LandmarkHD ℝ :=
  { landmark_id := i, landmark_name := "LM", x_original := x, y_original := y,
    z_original := 0, x_scaled := x, y_scaled := y, z_scaled := 0,
    relative_to_wrist_original := { x := 0, y := 0, z := 0 },
    relative_to_wrist_scaled := { x := 0, y := 0, z := 0 } }

/-- Concrete float landmark for witnesses of the NaN claim. -/
def mkLmF (i : ℕ) (x y : Fl) : Landmark Fl :=
  { landmark_id := i, landmark_name := "LM", x_raw := x, y_raw := y,
    z_raw := Fl.fin 0, x_scaled := x, y_scaled := y, z_scaled := Fl.fin 0 }

/-- Concrete float hand for witnesses. -/
def mkHandF (lbl : String) (ls : List (Landmark Fl)) : Hand Fl :=
  { hand_index := 0, hand_label := lbl, confidence := Fl.fin 1, landmarks := ls }

/-- A one-hand, one-landmark query pose. -/
def qOne : HandsData ℚ := { hands := [mkHand "Right" [mkLm 0 1 2]] }

/-- A query pose with no hands. -/
def qEmpty : HandsData ℚ := { hands := [] }

/-- A one-hand, one-landmark reference pose, right-handed. -/
def refOne : HandsData ℚ := { hands := [mkHand "Right" [mkLm 0 4 6]] }

/-- A one-hand, one-landmark reference pose, left-handed. -/
def refLeft : HandsData ℚ := { hands := [mkHand "Left" [mkLm 0 4 6]] }

/-- A reference record with no hands. -/
def refEmptyHands : HandsData ℚ := { hands := [] }

/-- A two-landmark reference pose (landmark-count mismatch with the
one-landmark queries). -/
def refTwo : HandsData ℚ := { hands := [mkHand "Right" [mkLm 0 0 0, mkLm 1 1 1]] }

/-- A singleton library holding a comparable reference. -/
def libOne : List (String × HandsData ℚ) := [("a", refOne)]

/-- A singleton library whose only reference has no hands. -/
def libBad : List (String × HandsData ℚ) := [("a", refEmptyHands)]

/-- A landmark list containing a wrist (id 0) and the rotation reference
(id 9) at distinct positions. -/
def rotLs : List (Landmark ℝ) := [mkLmR 0 0 0, mkLmR 9 3 4]

/-- As `rotLs`, in the `hand_detection.py` landmark format. -/
def rotMs : List (LandmarkHD ℝ) := [mkLmHD 0 0 0, mkLmHD 9 3 4]

/-- A landmark list with neither a wrist nor a rotation reference. -/
def noWristLs : List (Landmark ℝ) := [mkLmR 5 1 1]

/-- As `noWristLs`, in the `hand_detection.py` landmark format. -/
def noWristMs : List (LandmarkHD ℝ) := [mkLmHD 5 1 1]

/-- A float query whose only landmark has a NaN x coordinate. -/
def qNan : HandsData Fl :=
  { hands := [mkHandF "Right" [mkLmF 0 Fl.nan (Fl.fin 0)]] }

/-- A float library with one comparable reference. -/
def libF : List (String × HandsData Fl) :=
  [("a", { hands := [mkHandF "Right" [mkLmF 0 (Fl.fin 1) (Fl.fin 2)]] })]

/-- First detector landmark of the scaling demo (raw pixel box corner
`(0, 0)` at unit image size). -/
def mpDemo0 : MPLandmark := { x := 0, y := 0, z := 0 }

/-- Remaining detector landmarks of the scaling demo (one landmark at raw
pixel `(100, 100)`). -/
def mpDemoRest : List MPLandmark := [{ x := 100, y := 100, z := 0 }]

/-- The same two raw points in the API request format of `main.py`. -/
def apiDemo : List (Landmark ℚ) := [mkLm 0 0 0, mkLm 1 100 100]

theorem calculate_rms_distance_ne_top_iff (live : List (Hand ℚ)) (asl : HandsData ℚ) :
    calculate_rms_distance live asl ≠ ⊤ ↔ posesComparable live asl = true := by
  rcases hl : live.head? with _ | lh <;> rcases ha : asl.hands.head? with _ | ah <;>
      simp only [calculate_rms_distance, posesComparable, hl, ha]
  · simp
  · simp
  · simp
  · by_cases hlen : lh.landmarks.length = ah.landmarks.length
    · by_cases h0 : lh.landmarks.length = 0
      · simp [hlen, h0]
      · simp [hlen, h0, WithTop.coe_ne_top]
    · simp [hlen]

theorem penalized_eq_top_iff (d : WithTop ℝ) : penalized d = ⊤ ↔ d = ⊤ := by
  rcases d with _ | x
  · simp [penalized, WithTop.map]
  · constructor
    · intro h
      exact absurd h (by simp [penalized, WithTop.map, WithTop.coe_ne_top])
    · intro h
      exact absurd h (WithTop.coe_ne_top)

theorem adjustedDistance_ne_top_iff (lbl : Option String) (live : List (Hand ℚ))
    (asl : HandsData ℚ) :
    adjustedDistance lbl live asl ≠ ⊤ ↔ posesComparable live asl = true := by
  unfold adjustedDistance
  by_cases h : labelMismatch lbl (aslLabel asl) = true
  · simp only [h, if_true]
    rw [Ne, penalized_eq_top_iff]
    exact calculate_rms_distance_ne_top_iff live asl
  · simp only [eq_false_of_ne_true h, if_false]
    exact calculate_rms_distance_ne_top_iff live asl

theorem matchStep_snd (lbl : Option String) (live : List (Hand ℚ))
    (best : Option String × WithTop ℝ × Option String) (entry : String × HandsData ℚ) :
    (matchStep lbl live best entry).2.1 =
      min (adjustedDistance lbl live entry.2) best.2.1 := by
  unfold matchStep
  by_cases h : adjustedDistance lbl live entry.2 < best.2.1
  · simp [h, min_eq_left h.le]
  · simp [h, min_eq_right (not_lt.mp h)]

theorem minAdjusted_nil (lbl : Option String) (live : List (Hand ℚ)) :
    minAdjusted lbl live [] = ⊤ := rfl

theorem minAdjusted_cons (lbl : Option String) (live : List (Hand ℚ))
    (e : String × HandsData ℚ) (L : List (String × HandsData ℚ)) :
    minAdjusted lbl live (e :: L) =
      min (adjustedDistance lbl live e.2) (minAdjusted lbl live L) := rfl

theorem foldl_matchStep_snd (lbl : Option String) (live : List (Hand ℚ)) :
    ∀ (L : List (String × HandsData ℚ)) (acc : Option String × WithTop ℝ × Option String),
      (L.foldl (matchStep lbl live) acc).2.1 = min acc.2.1 (minAdjusted lbl live L) := by
  intro L
  induction L with
  | nil => intro acc; simp [minAdjusted_nil]
  | cons e L ih =>
    intro acc
    rw [List.foldl_cons, ih, matchStep_snd, minAdjusted_cons]
    rw [min_comm (adjustedDistance lbl live e.2) acc.2.1, min_assoc]

theorem foldl_matchStep_keep (lbl : Option String) (live : List (Hand ℚ)) :
    ∀ (L : List (String × HandsData ℚ)) (acc : Option String × WithTop ℝ × Option String),
      acc.2.1 ≤ minAdjusted lbl live L → L.foldl (matchStep lbl live) acc = acc := by
  intro L
  induction L with
  | nil => intro acc _; rfl
  | cons e L ih =>
    intro acc hle
    rw [minAdjusted_cons, le_min_iff] at hle
    rw [List.foldl_cons]
    have hstep : matchStep lbl live acc e = acc := by
      unfold matchStep
      simp [not_lt.mpr hle.1]
    rw [hstep]
    exact ih acc hle.2

theorem foldl_matchStep_select (lbl : Option String) (live : List (Hand ℚ)) :
    ∀ (L : List (String × HandsData ℚ)) (acc : Option String × WithTop ℝ × Option String),
      minAdjusted lbl live L < acc.2.1 →
      ∃ i, ∃ h : i < L.length,
        adjustedDistance lbl live (L.get ⟨i, h⟩).2 = minAdjusted lbl live L ∧
        (∀ j (hj : j < i), minAdjusted lbl live L <
          adjustedDistance lbl live (L.get ⟨j, Nat.lt_trans hj h⟩).2) ∧
        L.foldl (matchStep lbl live) acc =
          (some (L.get ⟨i, h⟩).1, minAdjusted lbl live L, aslLabel (L.get ⟨i, h⟩).2) := by
  intro L
  induction L with
  | nil =>
    intro acc hlt
    rw [minAdjusted_nil] at hlt
    exact absurd hlt (not_top_lt)
  | cons e L ih =>
    intro acc hlt
    rw [minAdjusted_cons] at hlt ⊢
    rcases le_or_lt (adjustedDistance lbl live e.2) (minAdjusted lbl live L) with hcase | hcase
    · -- the head attains the minimum
      have hmin : min (adjustedDistance lbl live e.2) (minAdjusted lbl live L) =
          adjustedDistance lbl live e.2 := min_eq_left hcase
      rw [hmin] at hlt ⊢
      refine ⟨0, Nat.succ_pos _, rfl, fun j hj => absurd hj (Nat.not_lt_zero j), ?_⟩
      rw [List.foldl_cons]
      have hstep : matchStep lbl live acc e =
          (some e.1, adjustedDistance lbl live e.2, aslLabel e.2) := by
        unfold matchStep
        simp [hlt]
      rw [hstep]
      exact foldl_matchStep_keep lbl live L _ hcase
    · -- the minimum is attained in the tail
      have hmin : min (adjustedDistance lbl live e.2) (minAdjusted lbl live L) =
          minAdjusted lbl live L := min_eq_right hcase.le
      rw [hmin] at hlt ⊢
      by_cases hhead : adjustedDistance lbl live e.2 < acc.2.1
      · -- the head improves on the seed but is later beaten by the tail minimum
        rw [List.foldl_cons]
        have hstep : matchStep lbl live acc e =
            (some e.1, adjustedDistance lbl live e.2, aslLabel e.2) := by
          unfold matchStep
          simp [hhead]
        rw [hstep]
        obtain ⟨i, hi, heq, hfirst, hres⟩ :=
          ih (some e.1, adjustedDistance lbl live e.2, aslLabel e.2) hcase
        refine ⟨i + 1, Nat.succ_lt_succ hi, heq, ?_, hres⟩
        intro j hj
        cases j with
        | zero => exact hcase
        | succ j => exact hfirst j (Nat.lt_of_succ_lt_succ hj)
      · -- the head does not improve on the seed
        rw [List.foldl_cons]
        have hstep : matchStep lbl live acc e = acc := by
          unfold matchStep
          simp [hhead]
        rw [hstep]
        obtain ⟨i, hi, heq, hfirst, hres⟩ := ih acc hlt
        refine ⟨i + 1, Nat.succ_lt_succ hi, heq, ?_, hres⟩
        intro j hj
        cases j with
        | zero => exact hcase
        | succ j => exact hfirst j (Nat.lt_of_succ_lt_succ hj)

theorem minAdjusted_le (lbl : Option String) (live : List (Hand ℚ)) :
    ∀ (L : List (String × HandsData ℚ)), ∀ e ∈ L,
      minAdjusted lbl live L ≤ adjustedDistance lbl live e.2 := by
  intro L
  induction L with
  | nil => intro e he; exact absurd he (List.not_mem_nil e)
  | cons a L ih =>
    intro e he
    rw [minAdjusted_cons]
    rcases List.mem_cons.mp he with rfl | he
    · exact min_le_left _ _
    · exact le_trans (min_le_right _ _) (ih e he)

theorem ratCast_list_sum (l : List ℚ) :
    ((l.sum : ℚ) : ℝ) = (l.map (fun q : ℚ => (q : ℝ))).sum := by
  induction l with
  | nil => simp
  | cons a l ih => rw [List.sum_cons, Rat.cast_add, ih, List.map_cons, List.sum_cons]

theorem totalDistanceSquared_cast (lp ap : List (Landmark ℚ)) :
    ((totalDistanceSquared lp ap : ℚ) : ℝ) =
      ((lp.zip ap).map
        (fun p => ((p.1.x_scaled : ℝ) - (p.2.x_scaled : ℝ)) ^ 2 +
                  ((p.1.y_scaled : ℝ) - (p.2.y_scaled : ℝ)) ^ 2)).sum := by
  unfold totalDistanceSquared
  rw [ratCast_list_sum, List.map_map]
  refine congrArg List.sum (List.map_congr_left ?_)
  intro p _
  simp only [Function.comp_apply]
  push_cast
  ring

theorem totalDistanceSquared_zipWith (lp ap : List (Landmark ℚ)) :
    totalDistanceSquared lp ap =
      (List.zipWith (fun a b => (a.1 - b.1) ^ 2 + (a.2 - b.2) ^ 2)
        (lp.map fun l => (l.x_scaled, l.y_scaled))
        (ap.map fun l => (l.x_scaled, l.y_scaled))).sum := by
  unfold totalDistanceSquared
  rw [List.zip_eq_zipWith, List.map_zipWith, List.zipWith_map]

theorem calculate_rms_distance_congr (lh lh2 : Hand ℚ) (lt2 lr : List (Hand ℚ))
    (asl asl2 : HandsData ℚ) (ah ah2 : Hand ℚ) (ar ar2 : List (Hand ℚ))
    (h1 : asl.hands = ah :: ar) (h2 : asl2.hands = ah2 :: ar2)
    (hl : lh.landmarks.map (fun l => (l.x_scaled, l.y_scaled)) =
      lh2.landmarks.map (fun l => (l.x_scaled, l.y_scaled)))
    (ha : ah.landmarks.map (fun l => (l.x_scaled, l.y_scaled)) =
      ah2.landmarks.map (fun l => (l.x_scaled, l.y_scaled))) :
    calculate_rms_distance (lh2 :: lt2) asl2 = calculate_rms_distance (lh :: lr) asl := by
  have hlen2 : lh2.landmarks.length = lh.landmarks.length := by
    have h := congrArg List.length hl
    rw [List.length_map, List.length_map] at h
    exact h.symm
  have halen2 : ah2.landmarks.length = ah.landmarks.length := by
    have h := congrArg List.length ha
    rw [List.length_map, List.length_map] at h
    exact h.symm
  simp only [calculate_rms_distance, h1, h2, List.head?_cons]
  rw [totalDistanceSquared_zipWith lh2.landmarks ah2.landmarks, ← hl, ← ha,
    ← totalDistanceSquared_zipWith lh.landmarks ah.landmarks, hlen2, halen2]

/-- C1: for a query pose and a reference pose whose first hands carry the
same nonzero landmark count N, `calculate_rms_distance` returns exactly
`sqrt((1/N) * Σ ((qx_i - rx_i)^2 + (qy_i - ry_i)^2))` over the scaled
planar coordinates of corresponding landmark pairs; moreover the raw
distance depends only on those scaled planar coordinate sequences — the
z values, raw coordinates, confidence, labels, and all hands past the
first are irrelevant to it. -/
theorem c1_rms_distance_formula (live_hand : Hand ℚ) (live_rest : List (Hand ℚ))
    (asl : HandsData ℚ) (asl_hand : Hand ℚ) (asl_rest : List (Hand ℚ))
    (hasl : asl.hands = asl_hand :: asl_rest)
    (hlen : live_hand.landmarks.length = asl_hand.landmarks.length)
    (hne : live_hand.landmarks.length ≠ 0) :
    calculate_rms_distance (live_hand :: live_rest) asl =
      ((Real.sqrt ((1 / (live_hand.landmarks.length : ℝ)) *
        ((live_hand.landmarks.zip asl_hand.landmarks).map
          (fun p => ((p.1.x_scaled : ℝ) - (p.2.x_scaled : ℝ)) ^ 2 +
                    ((p.1.y_scaled : ℝ) - (p.2.y_scaled : ℝ)) ^ 2)).sum) : ℝ)) ∧
    ∀ (live_hand2 : Hand ℚ) (live_rest2 : List (Hand ℚ)) (asl2 : HandsData ℚ)
      (asl_hand2 : Hand ℚ) (asl_rest2 : List (Hand ℚ)),
      asl2.hands = asl_hand2 :: asl_rest2 →
      live_hand.landmarks.map (fun l => (l.x_scaled, l.y_scaled)) =
        live_hand2.landmarks.map (fun l => (l.x_scaled, l.y_scaled)) →
      asl_hand.landmarks.map (fun l => (l.x_scaled, l.y_scaled)) =
        asl_hand2.landmarks.map (fun l => (l.x_scaled, l.y_scaled)) →
      calculate_rms_distance (live_hand2 :: live_rest2) asl2 =
        calculate_rms_distance (live_hand :: live_rest) asl := by
  constructor
  · simp only [calculate_rms_distance, hasl, List.head?_cons]
    rw [if_pos hlen, if_neg hne, totalDistanceSquared_cast, one_div_mul_eq_div]
  · intro live_hand2 live_rest2 asl2 asl_hand2 asl_rest2 hasl2 hl ha
    exact calculate_rms_distance_congr live_hand live_hand2 live_rest2 live_rest
      asl asl2 asl_hand asl_hand2 asl_rest asl_rest2 hasl hasl2 hl ha

theorem c1_witness :
    refOne.hands = mkHand "Right" [mkLm 0 4 6] :: [] ∧
    (mkHand "Right" [mkLm 0 1 2]).landmarks.length =
      (mkHand "Right" [mkLm 0 4 6]).landmarks.length ∧
    (mkHand "Right" [mkLm 0 1 2]).landmarks.length ≠ 0 ∧
    calculate_rms_distance [mkHand "Right" [mkLm 0 1 2]] refOne =
      ((Real.sqrt ((1 / ((mkHand "Right" [mkLm 0 1 2]).landmarks.length : ℝ)) *
        (((mkHand "Right" [mkLm 0 1 2]).landmarks.zip
            (mkHand "Right" [mkLm 0 4 6]).landmarks).map
          (fun p => ((p.1.x_scaled : ℝ) - (p.2.x_scaled : ℝ)) ^ 2 +
                    ((p.1.y_scaled : ℝ) - (p.2.y_scaled : ℝ)) ^ 2)).sum) : ℝ)) :=
  ⟨rfl, rfl, by decide,
    (c1_rms_distance_formula (mkHand "Right" [mkLm 0 1 2]) [] refOne
      (mkHand "Right" [mkLm 0 4 6]) [] rfl rfl (by decide)).1⟩

/-- C2: the distance used for comparison in `find_closest_asl_match` is
the raw RMS distance multiplied by exactly 1.1 when both hand-orientation
labels are present and differ (`penalized` scales a finite distance by
`11/10` and keeps infinity), and the raw distance unchanged when the
labels agree or either is absent; a cross-orientation reference is never
excluded from consideration: the returned distance is never worse than
any library entry's adjusted distance. -/
theorem c2_orientation_penalty :
    (∀ x : ℝ, penalized ((x : ℝ) : WithTop ℝ) = (((x * (11 / 10) : ℝ)) : WithTop ℝ)) ∧
    penalized ⊤ = ⊤ ∧
    (∀ (lbl : Option String) (live : List (Hand ℚ)) (asl : HandsData ℚ),
      labelTruthy lbl = true → labelTruthy (aslLabel asl) = true →
      lbl ≠ aslLabel asl →
      adjustedDistance lbl live asl = penalized (calculate_rms_distance live asl)) ∧
    (∀ (lbl : Option String) (live : List (Hand ℚ)) (asl : HandsData ℚ),
      lbl = aslLabel asl ∨ lbl = none ∨ aslLabel asl = none →
      adjustedDistance lbl live asl = calculate_rms_distance live asl) ∧
    (∀ (q : HandsData ℚ) (lib : List (String × HandsData ℚ))
      (lh : Hand ℚ) (t : List (Hand ℚ)),
      q.hands = lh :: t → ∀ e ∈ lib,
        (find_closest_asl_match q lib).2.1 ≤
          adjustedDistance (some lh.hand_label) q.hands e.2) := by
  refine ⟨fun x => rfl, rfl, ?_, ?_, ?_⟩
  · intro lbl live asl h1 h2 h3
    have hm : labelMismatch lbl (aslLabel asl) = true := by
      simp [labelMismatch, h1, h2, bne_iff_ne, h3]
    simp [adjustedDistance, hm]
  · intro lbl live asl h
    have hm : labelMismatch lbl (aslLabel asl) = false := by
      rcases h with h | h | h
      · simp [labelMismatch, h]
      · simp [labelMismatch, h, labelTruthy]
      · simp [labelMismatch, h, labelTruthy]
    simp [adjustedDistance, hm]
  · intro q lib lh t hq e he
    obtain ⟨hands⟩ := q
    simp only at hq
    subst hq
    simp only [find_closest_asl_match]
    rw [foldl_matchStep_snd]
    exact le_trans (min_le_right _ _) (minAdjusted_le _ _ lib e he)

theorem c2_witness :
    labelTruthy (some "Left") = true ∧
    labelTruthy (aslLabel refOne) = true ∧
    (some "Left" : Option String) ≠ aslLabel refOne ∧
    adjustedDistance (some "Left") [mkHand "Left" [mkLm 0 1 2]] refOne =
      penalized (calculate_rms_distance [mkHand "Left" [mkLm 0 1 2]] refOne) ∧
    adjustedDistance (some "Right") [mkHand "Right" [mkLm 0 1 2]] refOne =
      calculate_rms_distance [mkHand "Right" [mkLm 0 1 2]] refOne ∧
    (find_closest_asl_match qOne libOne).2.1 ≤
      adjustedDistance (some (mkHand "Right" [mkLm 0 1 2]).hand_label) qOne.hands refOne :=
  ⟨rfl, rfl, by decide,
   c2_orientation_penalty.2.2.1 (some "Left") _ refOne rfl rfl (by decide),
   c2_orientation_penalty.2.2.2.1 (some "Right") _ refOne (Or.inl rfl),
   c2_orientation_penalty.2.2.2.2 qOne libOne (mkHand "Right" [mkLm 0 1 2]) [] rfl
     ("a", refOne) (List.mem_singleton.mpr rfl)⟩

/-- C3 is refuted at this input: the query has a hand and the library is
nonempty, so the claim demands that the letter of the (unique, hence
minimal) pair — the letter "a" — be returned together with its adjusted
distance; but that pair's reference has no hands, its adjusted distance
is infinite, and the code returns no letter at all. -/
theorem c3_counterexample :
    qOne.hands ≠ [] ∧ libBad ≠ [] ∧ libBad.length = 1 ∧
    (libBad.get ⟨0, by decide⟩).1 = "a" ∧
    find_closest_asl_match qOne libBad = (none, ⊤, none) := by
  refine ⟨by simp [qOne], by simp [libBad], rfl, rfl, ?_⟩
  have hadj : adjustedDistance (some (mkHand "Right" [mkLm 0 1 2]).hand_label)
      [mkHand "Right" [mkLm 0 1 2]] refEmptyHands = ⊤ := by
    simp [adjustedDistance, labelMismatch, aslLabel, refEmptyHands, labelTruthy,
      calculate_rms_distance]
  simp [find_closest_asl_match, qOne, libBad, matchStep, hadj, lt_irrefl]

/-- C3 (amended): for a query with at least one hand and a library in
which at least one reference is comparable to the query (equivalently:
some pair's adjusted distance is finite), `find_closest_asl_match`
returns the letter, adjusted distance and reference hand label of the
first library pair attaining the minimal adjusted distance; the returned
distance is a lower bound of all pairs' adjusted distances, and every
earlier pair is strictly worse (ties go to the first-seen pair).  When
every pair's adjusted distance is infinite the code instead returns
`(none, ⊤, none)` — see the counterexample. -/
theorem c3_best_match_characterization (q : HandsData ℚ)
    (lib : List (String × HandsData ℚ)) (lh : Hand ℚ) (t : List (Hand ℚ))
    (hq : q.hands = lh :: t)
    (hfin : ∃ e ∈ lib, posesComparable q.hands e.2 = true) :
    ∃ i, ∃ h : i < lib.length,
      find_closest_asl_match q lib =
        (some (lib.get ⟨i, h⟩).1,
         adjustedDistance (some lh.hand_label) q.hands (lib.get ⟨i, h⟩).2,
         aslLabel (lib.get ⟨i, h⟩).2) ∧
      (∀ j (hj : j < lib.length),
        adjustedDistance (some lh.hand_label) q.hands (lib.get ⟨i, h⟩).2 ≤
          adjustedDistance (some lh.hand_label) q.hands (lib.get ⟨j, hj⟩).2) ∧
      ∀ j (hj : j < i),
        adjustedDistance (some lh.hand_label) q.hands (lib.get ⟨i, h⟩).2 <
          adjustedDistance (some lh.hand_label) q.hands
            (lib.get ⟨j, Nat.lt_trans hj h⟩).2 := by
  obtain ⟨hands⟩ := q
  simp only at hq
  subst hq
  obtain ⟨e, he, hcomp⟩ := hfin
  have hne : adjustedDistance (some lh.hand_label) (lh :: t) e.2 ≠ ⊤ :=
    (adjustedDistance_ne_top_iff _ _ _).mpr hcomp
  have hmin_lt : minAdjusted (some lh.hand_label) (lh :: t) lib < ⊤ :=
    lt_of_le_of_lt (minAdjusted_le _ _ lib e he) (lt_top_iff_ne_top.mpr hne)
  obtain ⟨i, h, heq, hfirst, hres⟩ :=
    foldl_matchStep_select (some lh.hand_label) (lh :: t) lib (none, ⊤, none) hmin_lt
  refine ⟨i, h, ?_, ?_, ?_⟩
  · show find_closest_asl_match { hands := lh :: t } lib = _
    simp only [find_closest_asl_match]
    rw [hres, ← heq]
  · intro j hj
    rw [heq]
    exact minAdjusted_le _ _ lib _ (List.get_mem lib j hj)
  · intro j hj
    rw [heq]
    exact hfirst j hj

theorem c3_witness :
    qOne.hands = mkHand "Right" [mkLm 0 1 2] :: [] ∧
    (∃ e ∈ libOne, posesComparable qOne.hands e.2 = true) ∧
    ∃ i, ∃ h : i < libOne.length,
      find_closest_asl_match qOne libOne =
        (some (libOne.get ⟨i, h⟩).1,
         adjustedDistance (some (mkHand "Right" [mkLm 0 1 2]).hand_label) qOne.hands
           (libOne.get ⟨i, h⟩).2,
         aslLabel (libOne.get ⟨i, h⟩).2) ∧
      (∀ j (hj : j < libOne.length),
        adjustedDistance (some (mkHand "Right" [mkLm 0 1 2]).hand_label) qOne.hands
            (libOne.get ⟨i, h⟩).2 ≤
          adjustedDistance (some (mkHand "Right" [mkLm 0 1 2]).hand_label) qOne.hands
            (libOne.get ⟨j, hj⟩).2) ∧
      ∀ j (hj : j < i),
        adjustedDistance (some (mkHand "Right" [mkLm 0 1 2]).hand_label) qOne.hands
            (libOne.get ⟨i, h⟩).2 <
          adjustedDistance (some (mkHand "Right" [mkLm 0 1 2]).hand_label) qOne.hands
            (libOne.get ⟨j, Nat.lt_trans hj h⟩).2 :=
  ⟨rfl, by decide,
    c3_best_match_characterization qOne libOne (mkHand "Right" [mkLm 0 1 2]) [] rfl
      (by decide)⟩

/-- C6: the no-data conditions give the no-match result instead of an
error (the Lean model is total, mirroring that the Python code raises no
exception on these paths): a query with zero hands gives
`(none, ⊤, none)` for any library, an empty library gives
`(none, ⊤, none)` for any query, and the raw distance is `⊤` whenever
either pose has zero hands or the two first hands' landmark counts
differ. -/
theorem c6_no_data_totals (q : HandsData ℚ) (lib : List (String × HandsData ℚ))
    (live : List (Hand ℚ)) (asl : HandsData ℚ) :
    (q.hands = [] → find_closest_asl_match q lib = (none, ⊤, none)) ∧
    find_closest_asl_match q [] = (none, ⊤, none) ∧
    (live = [] → calculate_rms_distance live asl = ⊤) ∧
    (asl.hands = [] → calculate_rms_distance live asl = ⊤) ∧
    (∀ lh ah : Hand ℚ, live.head? = some lh → asl.hands.head? = some ah →
      lh.landmarks.length ≠ ah.landmarks.length →
      calculate_rms_distance live asl = ⊤) := by
  refine ⟨?_, ?_, ?_, ?_, ?_⟩
  · intro hq
    obtain ⟨hands⟩ := q
    simp only at hq
    subst hq
    rfl
  · obtain ⟨hands⟩ := q
    cases hands with
    | nil => rfl
    | cons lh t => rfl
  · intro hl
    subst hl
    rfl
  · intro ha
    simp only [calculate_rms_distance, ha]
    rcases live.head? with _ | lh <;> rfl
  · intro lh ah hl ha hlen
    simp [calculate_rms_distance, hl, ha, hlen]

theorem c6_witness :
    qEmpty.hands = [] ∧
    find_closest_asl_match qEmpty libOne = (none, ⊤, none) ∧
    find_closest_asl_match qOne [] = (none, ⊤, none) ∧
    calculate_rms_distance [] refOne = ⊤ ∧
    refEmptyHands.hands = [] ∧
    calculate_rms_distance [mkHand "Right" [mkLm 0 1 2]] refEmptyHands = ⊤ ∧
    ([mkHand "Right" [mkLm 0 1 2]] : List (Hand ℚ)).head? =
      some (mkHand "Right" [mkLm 0 1 2]) ∧
    refTwo.hands.head? = some (mkHand "Right" [mkLm 0 0 0, mkLm 1 1 1]) ∧
    (mkHand "Right" [mkLm 0 1 2]).landmarks.length ≠
      (mkHand "Right" [mkLm 0 0 0, mkLm 1 1 1]).landmarks.length ∧
    calculate_rms_distance [mkHand "Right" [mkLm 0 1 2]] refTwo = ⊤ :=
  ⟨rfl,
   (c6_no_data_totals qEmpty libOne [] refOne).1 rfl,
   (c6_no_data_totals qOne [] [] refOne).2.1,
   (c6_no_data_totals qOne libOne [] refOne).2.2.1 rfl,
   rfl,
   (c6_no_data_totals qOne libOne [mkHand "Right" [mkLm 0 1 2]] refEmptyHands).2.2.2.1 rfl,
   rfl, rfl, by decide,
   (c6_no_data_totals qOne libOne [mkHand "Right" [mkLm 0 1 2]] refTwo).2.2.2.2
     (mkHand "Right" [mkLm 0 1 2]) (mkHand "Right" [mkLm 0 0 0, mkLm 1 1 1])
     rfl rfl (by decide)⟩

theorem Fl.sqrtF_ne_ninf (d : Fl) : Fl.sqrtF d ≠ Fl.ninf := by
  cases d with
  | fin x =>
    show (if x < 0 then Fl.nan else Fl.fin (Real.sqrt x)) ≠ Fl.ninf
    split <;> simp
  | inf => simp [Fl.sqrtF]
  | ninf => simp [Fl.sqrtF]
  | nan => simp [Fl.sqrtF]

theorem calculate_rms_distanceF_ne_ninf (live : List (Hand Fl)) (asl : HandsData Fl) :
    calculate_rms_distanceF live asl ≠ Fl.ninf := by
  rcases hl : live.head? with _ | lh <;> rcases ha : asl.hands.head? with _ | ah <;>
      simp only [calculate_rms_distanceF, hl, ha]
  · intro h; exact Fl.noConfusion h
  · intro h; exact Fl.noConfusion h
  · intro h; exact Fl.noConfusion h
  · by_cases h1 : lh.landmarks.length = ah.landmarks.length
    · rw [if_pos h1]
      by_cases h2 : lh.landmarks.length = 0
      · rw [if_pos h2]
        simp
      · rw [if_neg h2]
        exact Fl.sqrtF_ne_ninf _
    · rw [if_neg h1]
      simp

theorem adjustedDistanceF_ne_ninf (lbl : Option String) (live : List (Hand Fl))
    (asl : HandsData Fl) : adjustedDistanceF lbl live asl ≠ Fl.ninf := by
  unfold adjustedDistanceF
  by_cases hm : labelMismatch lbl (aslLabelF asl) = true
  · simp only [hm, if_true, ite_true]
    have hd := calculate_rms_distanceF_ne_ninf live asl
    rcases hdd : calculate_rms_distanceF live asl with x | _ | _ | _
    · simp [Fl.mul]
    · simp only [Fl.mul]
      rw [if_pos (by norm_num : (0 : ℝ) < 11 / 10)]
      intro h; exact Fl.noConfusion h
    · exact absurd hdd hd
    · simp [Fl.mul]
  · simp only [eq_false_of_ne_true hm, if_false, ite_false]
    exact calculate_rms_distanceF_ne_ninf live asl

theorem Fl.ltF_nan_left (b : Fl) : Fl.ltF Fl.nan b = false := by
  cases b <;> rfl

theorem Fl.ltF_inf_left (b : Fl) : Fl.ltF Fl.inf b = false := by
  cases b <;> rfl

theorem foldl_matchStepF_invariant (lbl : Option String) (live : List (Hand Fl)) :
    ∀ (L : List (String × HandsData Fl)) (acc : Option String × Fl × Option String),
      ((acc.1 = none ∧ acc.2.1 = Fl.inf) ∨ ∃ x, acc.2.1 = Fl.fin x ∧ acc.1 ≠ none) →
      (((L.foldl (matchStepF lbl live) acc).1 = none ∧
          (L.foldl (matchStepF lbl live) acc).2.1 = Fl.inf) ∨
        ∃ x, (L.foldl (matchStepF lbl live) acc).2.1 = Fl.fin x ∧
          (L.foldl (matchStepF lbl live) acc).1 ≠ none) := by
  intro L
  induction L with
  | nil => intro acc h; exact h
  | cons e L ih =>
    intro acc h
    rw [List.foldl_cons]
    apply ih
    by_cases hlt : Fl.ltF (adjustedDistanceF lbl live e.2) acc.2.1 = true
    · have hstep : matchStepF lbl live acc e =
          (some e.1, adjustedDistanceF lbl live e.2, aslLabelF e.2) := by
        unfold matchStepF
        simp [hlt]
      rw [hstep]
      rcases hadj : adjustedDistanceF lbl live e.2 with x | _ | _ | _
      · exact Or.inr ⟨x, rfl, by simp⟩
      · rw [hadj, Fl.ltF_inf_left] at hlt
        exact absurd hlt (by simp)
      · exact absurd hadj (adjustedDistanceF_ne_ninf lbl live e.2)
      · rw [hadj, Fl.ltF_nan_left] at hlt
        exact absurd hlt (by simp)
    · have hstep : matchStepF lbl live acc e = acc := by
        unfold matchStepF
        simp [hlt]
      rw [hstep]
      exact h

/-- C7: under IEEE float semantics, the distance returned by
`find_closest_asl_match` is never NaN — in particular for a query whose
first hand carries NaN scaled coordinates: since the float comparison
rejects NaN (and infinity) on the left, a pair whose adjusted distance is
NaN (or infinite) is never selected as best, so the final result is
either no match with the initial `+∞` distance or some letter with a
finite distance. -/
theorem c7_nan_never_selected (q : HandsData Fl) (L : List (String × HandsData Fl))
    (hnan : hasNanScaled q = true) :
    (find_closest_asl_matchF q L).2.1.isNan = false ∧
    (((find_closest_asl_matchF q L).1 = none ∧
        (find_closest_asl_matchF q L).2.1 = Fl.inf) ∨
      ∃ x, (find_closest_asl_matchF q L).2.1 = Fl.fin x ∧
        (find_closest_asl_matchF q L).1 ≠ none) := by
  have hres : ((find_closest_asl_matchF q L).1 = none ∧
      (find_closest_asl_matchF q L).2.1 = Fl.inf) ∨
      ∃ x, (find_closest_asl_matchF q L).2.1 = Fl.fin x ∧
        (find_closest_asl_matchF q L).1 ≠ none := by
    obtain ⟨hands⟩ := q
    cases hands with
    | nil => exact Or.inl ⟨rfl, rfl⟩
    | cons lh t =>
      simp only [find_closest_asl_matchF]
      exact foldl_matchStepF_invariant _ _ L (none, Fl.inf, none) (Or.inl ⟨rfl, rfl⟩)
  refine ⟨?_, hres⟩
  rcases hres with ⟨_, h2⟩ | ⟨x, h2, _⟩
  · rw [h2]; rfl
  · rw [h2]; rfl

theorem c7_witness :
    hasNanScaled qNan = true ∧
    ((find_closest_asl_matchF qNan libF).2.1.isNan = false ∧
      (((find_closest_asl_matchF qNan libF).1 = none ∧
          (find_closest_asl_matchF qNan libF).2.1 = Fl.inf) ∨
        ∃ x, (find_closest_asl_matchF qNan libF).2.1 = Fl.fin x ∧
          (find_closest_asl_matchF qNan libF).1 ≠ none)) :=
  ⟨rfl, c7_nan_never_selected qNan libF rfl⟩

theorem normalize_hand_rotation_spec (ls : List (Landmark ℝ)) :
    normalize_hand_rotation ls = ls ∨
    ∃ w r, (findWristAndRef ls).1 = some w ∧ (findWristAndRef ls).2 = some r ∧
      ¬(r.x_scaled - w.x_scaled = 0 ∧ r.y_scaled - w.y_scaled = 0) ∧
      normalize_hand_rotation ls = ls.map (rotMap w r) := by
  rcases hfw : findWristAndRef ls with ⟨o1, o2⟩
  rcases o1 with _ | w
  · left
    unfold normalize_hand_rotation
    rw [hfw]
  · rcases o2 with _ | r
    · left
      unfold normalize_hand_rotation
      rw [hfw]
    · have hred : normalize_hand_rotation ls =
          if r.x_scaled - w.x_scaled = 0 ∧ r.y_scaled - w.y_scaled = 0 then ls
          else ls.map (rotMap w r) := by
        unfold normalize_hand_rotation
        rw [hfw]
        exact rfl
      by_cases hd : r.x_scaled - w.x_scaled = 0 ∧ r.y_scaled - w.y_scaled = 0
      · left
        rw [hred, if_pos hd]
      · right
        exact ⟨w, r, rfl, rfl, hd, by rw [hred, if_neg hd]⟩

theorem normalize_hand_rotation_specHD (ms : List (LandmarkHD ℝ)) :
    HandDetection.normalize_hand_rotation ms = ms ∨
    ∃ w r, (HandDetection.findWristAndRef ms).1 = some w ∧
      (HandDetection.findWristAndRef ms).2 = some r ∧
      ¬(r.x_scaled - w.x_scaled = 0 ∧ r.y_scaled - w.y_scaled = 0) ∧
      HandDetection.normalize_hand_rotation ms = ms.map (rotMapHD w r) := by
  rcases hfw : HandDetection.findWristAndRef ms with ⟨o1, o2⟩
  rcases o1 with _ | w
  · left
    unfold HandDetection.normalize_hand_rotation
    rw [hfw]
  · rcases o2 with _ | r
    · left
      unfold HandDetection.normalize_hand_rotation
      rw [hfw]
    · have hred : HandDetection.normalize_hand_rotation ms =
          if r.x_scaled - w.x_scaled = 0 ∧ r.y_scaled - w.y_scaled = 0 then ms
          else ms.map (rotMapHD w r) := by
        unfold HandDetection.normalize_hand_rotation
        rw [hfw]
        exact rfl
      by_cases hd : r.x_scaled - w.x_scaled = 0 ∧ r.y_scaled - w.y_scaled = 0
      · left
        rw [hred, if_pos hd]
      · right
        exact ⟨w, r, rfl, rfl, hd, by rw [hred, if_neg hd]⟩

/-- C9: the rotation step changes at most the scaled planar coordinates
(and, in the `hand_detection.py` version, the planar components of the
wrist-relative scaled record): landmark ids, names, raw coordinates, the
scaled depth, and the wrist-relative raw record are unchanged, for every
input list. -/
theorem c9_rotation_touches_only_planar (ls : List (Landmark ℝ)) (ms : List (LandmarkHD ℝ)) :
    ((normalize_hand_rotation ls).map Landmark.landmark_id = ls.map Landmark.landmark_id ∧
     (normalize_hand_rotation ls).map Landmark.landmark_name = ls.map Landmark.landmark_name ∧
     (normalize_hand_rotation ls).map Landmark.x_raw = ls.map Landmark.x_raw ∧
     (normalize_hand_rotation ls).map Landmark.y_raw = ls.map Landmark.y_raw ∧
     (normalize_hand_rotation ls).map Landmark.z_raw = ls.map Landmark.z_raw ∧
     (normalize_hand_rotation ls).map Landmark.z_scaled = ls.map Landmark.z_scaled) ∧
    ((HandDetection.normalize_hand_rotation ms).map LandmarkHD.landmark_id =
        ms.map LandmarkHD.landmark_id ∧
     (HandDetection.normalize_hand_rotation ms).map LandmarkHD.landmark_name =
        ms.map LandmarkHD.landmark_name ∧
     (HandDetection.normalize_hand_rotation ms).map LandmarkHD.x_original =
        ms.map LandmarkHD.x_original ∧
     (HandDetection.normalize_hand_rotation ms).map LandmarkHD.y_original =
        ms.map LandmarkHD.y_original ∧
     (HandDetection.normalize_hand_rotation ms).map LandmarkHD.z_original =
        ms.map LandmarkHD.z_original ∧
     (HandDetection.normalize_hand_rotation ms).map LandmarkHD.z_scaled =
        ms.map LandmarkHD.z_scaled ∧
     (HandDetection.normalize_hand_rotation ms).map LandmarkHD.relative_to_wrist_original =
        ms.map LandmarkHD.relative_to_wrist_original ∧
     (HandDetection.normalize_hand_rotation ms).map
          (fun m => m.relative_to_wrist_scaled.z) =
        ms.map (fun m => m.relative_to_wrist_scaled.z)) := by
  constructor
  · rcases normalize_hand_rotation_spec ls with h | ⟨w, r, _, _, _, h⟩
    · rw [h]
      exact ⟨rfl, rfl, rfl, rfl, rfl, rfl⟩
    · rw [h]
      refine ⟨?_, ?_, ?_, ?_, ?_, ?_⟩ <;>
        (rw [List.map_map]; exact List.map_congr_left fun l _ => rfl)
  · rcases normalize_hand_rotation_specHD ms with h | ⟨w, r, _, _, _, h⟩
    · rw [h]
      exact ⟨rfl, rfl, rfl, rfl, rfl, rfl, rfl, rfl⟩
    · rw [h]
      refine ⟨?_, ?_, ?_, ?_, ?_, ?_, ?_, ?_⟩ <;>
        (rw [List.map_map]; exact List.map_congr_left fun l _ => rfl)

theorem findWristRef_foldl_fst {α : Type} :
    ∀ (ls : List (Landmark α)), (∀ l ∈ ls, l.landmark_id ≠ 0) →
    ∀ acc : Option (Landmark α) × Option (Landmark α), acc.1 = none →
      (ls.foldl wristRefStep acc).1 = none := by
  intro ls
  induction ls with
  | nil => intro _ acc hacc; exact hacc
  | cons a ls ih =>
    intro h acc hacc
    rw [List.foldl_cons]
    refine ih (fun l hl => h l (List.mem_cons_of_mem a hl)) _ ?_
    unfold wristRefStep
    rw [if_neg (h a (List.mem_cons_self a ls))]
    by_cases h9 : a.landmark_id = 9
    · rw [if_pos h9]
      exact hacc
    · rw [if_neg h9]
      exact hacc

theorem findWristRef_foldl_snd {α : Type} :
    ∀ (ls : List (Landmark α)), (∀ l ∈ ls, l.landmark_id ≠ 9) →
    ∀ acc : Option (Landmark α) × Option (Landmark α), acc.2 = none →
      (ls.foldl wristRefStep acc).2 = none := by
  intro ls
  induction ls with
  | nil => intro _ acc hacc; exact hacc
  | cons a ls ih =>
    intro h acc hacc
    rw [List.foldl_cons]
    refine ih (fun l hl => h l (List.mem_cons_of_mem a hl)) _ ?_
    unfold wristRefStep
    by_cases h0 : a.landmark_id = 0
    · rw [if_pos h0]
      exact hacc
    · rw [if_neg h0, if_neg (h a (List.mem_cons_self a ls))]
      exact hacc

theorem findWristRefHD_foldl_fst {α : Type} :
    ∀ (ms : List (LandmarkHD α)), (∀ m ∈ ms, m.landmark_id ≠ 0) →
    ∀ acc : Option (LandmarkHD α) × Option (LandmarkHD α), acc.1 = none →
      (ms.foldl HandDetection.wristRefStep acc).1 = none := by
  intro ms
  induction ms with
  | nil => intro _ acc hacc; exact hacc
  | cons a ms ih =>
    intro h acc hacc
    rw [List.foldl_cons]
    refine ih (fun m hm => h m (List.mem_cons_of_mem a hm)) _ ?_
    unfold HandDetection.wristRefStep
    rw [if_neg (h a (List.mem_cons_self a ms))]
    by_cases h9 : a.landmark_id = 9
    · rw [if_pos h9]
      exact hacc
    · rw [if_neg h9]
      exact hacc

theorem findWristRefHD_foldl_snd {α : Type} :
    ∀ (ms : List (LandmarkHD α)), (∀ m ∈ ms, m.landmark_id ≠ 9) →
    ∀ acc : Option (LandmarkHD α) × Option (LandmarkHD α), acc.2 = none →
      (ms.foldl HandDetection.wristRefStep acc).2 = none := by
  intro ms
  induction ms with
  | nil => intro _ acc hacc; exact hacc
  | cons a ms ih =>
    intro h acc hacc
    rw [List.foldl_cons]
    refine ih (fun m hm => h m (List.mem_cons_of_mem a hm)) _ ?_
    unfold HandDetection.wristRefStep
    by_cases h0 : a.landmark_id = 0
    · rw [if_pos h0]
      exact hacc
    · rw [if_neg h0, if_neg (h a (List.mem_cons_self a ms))]
      exact hacc

/-- C10: when the input lacks a wrist landmark (id 0) or lacks the
rotation-reference landmark (id 9) — including the empty list — the
rotation step returns its input unchanged, in both implementations (and
the Lean model is total: no exception is raised). -/
theorem c10_rotation_missing_ids (ls : List (Landmark ℝ)) (ms : List (LandmarkHD ℝ))
    (hls : (∀ l ∈ ls, l.landmark_id ≠ 0) ∨ (∀ l ∈ ls, l.landmark_id ≠ 9))
    (hms : (∀ m ∈ ms, m.landmark_id ≠ 0) ∨ (∀ m ∈ ms, m.landmark_id ≠ 9)) :
    normalize_hand_rotation ls = ls ∧ HandDetection.normalize_hand_rotation ms = ms := by
  constructor
  · rcases normalize_hand_rotation_spec ls with h | ⟨w, r, hw, hr, _, _⟩
    · exact h
    · exfalso
      rcases hls with h0 | h9
      · exact Option.noConfusion
          ((findWristRef_foldl_fst ls h0 (none, none) rfl).symm.trans hw)
      · exact Option.noConfusion
          ((findWristRef_foldl_snd ls h9 (none, none) rfl).symm.trans hr)
  · rcases normalize_hand_rotation_specHD ms with h | ⟨w, r, hw, hr, _, _⟩
    · exact h
    · exfalso
      rcases hms with h0 | h9
      · exact Option.noConfusion
          ((findWristRefHD_foldl_fst ms h0 (none, none) rfl).symm.trans hw)
      · exact Option.noConfusion
          ((findWristRefHD_foldl_snd ms h9 (none, none) rfl).symm.trans hr)

theorem c10_witness :
    (∀ l ∈ noWristLs, l.landmark_id ≠ 0) ∧
    (∀ m ∈ noWristMs, m.landmark_id ≠ 0) ∧
    normalize_hand_rotation noWristLs = noWristLs ∧
    HandDetection.normalize_hand_rotation noWristMs = noWristMs :=
  ⟨by decide, by decide,
   (c10_rotation_missing_ids noWristLs noWristMs (Or.inl (by decide)) (Or.inl (by decide))).1,
   (c10_rotation_missing_ids noWristLs noWristMs (Or.inl (by decide)) (Or.inl (by decide))).2⟩

/-- C4: when a wrist (id 0) and a reference landmark (id 9) are found,
the rotation step maps every landmark's scaled position `p` to
`R(p - wrist) + (1000, 2000)` where `R` is the rotation by the angle
`-π/2 - atan2(y9 - y0, x9 - x0)`; in particular the wrist itself is
translated exactly to `(1000, 2000)`.  When the two scaled positions
coincide (`dx = dy = 0`) the input is returned unchanged.  Both
implementations (`live_hand_tracker.py` and `hand_detection.py`) are
covered. -/
theorem c4_rotation_formula (ls : List (Landmark ℝ)) (w r : Landmark ℝ)
    (ms : List (LandmarkHD ℝ)) (wh rh : LandmarkHD ℝ)
    (hw : (findWristAndRef ls).1 = some w) (hr : (findWristAndRef ls).2 = some r)
    (hwh : (HandDetection.findWristAndRef ms).1 = some wh)
    (hrh : (HandDetection.findWristAndRef ms).2 = some rh) :
    (((r.x_scaled - w.x_scaled = 0 ∧ r.y_scaled - w.y_scaled = 0) →
        normalize_hand_rotation ls = ls) ∧
      (¬(r.x_scaled - w.x_scaled = 0 ∧ r.y_scaled - w.y_scaled = 0) →
        normalize_hand_rotation ls = ls.map (rotMap w r) ∧
        (∀ l : Landmark ℝ,
          (rotMap w r l).x_scaled =
            (l.x_scaled - w.x_scaled) *
              Real.cos (-(Real.pi / 2) -
                atan2 (r.y_scaled - w.y_scaled) (r.x_scaled - w.x_scaled)) -
            (l.y_scaled - w.y_scaled) *
              Real.sin (-(Real.pi / 2) -
                atan2 (r.y_scaled - w.y_scaled) (r.x_scaled - w.x_scaled)) + 1000 ∧
          (rotMap w r l).y_scaled =
            (l.x_scaled - w.x_scaled) *
              Real.sin (-(Real.pi / 2) -
                atan2 (r.y_scaled - w.y_scaled) (r.x_scaled - w.x_scaled)) +
            (l.y_scaled - w.y_scaled) *
              Real.cos (-(Real.pi / 2) -
                atan2 (r.y_scaled - w.y_scaled) (r.x_scaled - w.x_scaled)) + 2000) ∧
        (rotMap w r w).x_scaled = 1000 ∧ (rotMap w r w).y_scaled = 2000)) ∧
    (((rh.x_scaled - wh.x_scaled = 0 ∧ rh.y_scaled - wh.y_scaled = 0) →
        HandDetection.normalize_hand_rotation ms = ms) ∧
      (¬(rh.x_scaled - wh.x_scaled = 0 ∧ rh.y_scaled - wh.y_scaled = 0) →
        HandDetection.normalize_hand_rotation ms = ms.map (rotMapHD wh rh) ∧
        (∀ m : LandmarkHD ℝ,
          (rotMapHD wh rh m).x_scaled =
            (m.x_scaled - wh.x_scaled) *
              Real.cos (-(Real.pi / 2) -
                atan2 (rh.y_scaled - wh.y_scaled) (rh.x_scaled - wh.x_scaled)) -
            (m.y_scaled - wh.y_scaled) *
              Real.sin (-(Real.pi / 2) -
                atan2 (rh.y_scaled - wh.y_scaled) (rh.x_scaled - wh.x_scaled)) + 1000 ∧
          (rotMapHD wh rh m).y_scaled =
            (m.x_scaled - wh.x_scaled) *
              Real.sin (-(Real.pi / 2) -
                atan2 (rh.y_scaled - wh.y_scaled) (rh.x_scaled - wh.x_scaled)) +
            (m.y_scaled - wh.y_scaled) *
              Real.cos (-(Real.pi / 2) -
                atan2 (rh.y_scaled - wh.y_scaled) (rh.x_scaled - wh.x_scaled)) + 2000) ∧
        (rotMapHD wh rh wh).x_scaled = 1000 ∧ (rotMapHD wh rh wh).y_scaled = 2000)) := by
  have hfw : findWristAndRef ls = (some w, some r) := by
    rcases h : findWristAndRef ls with ⟨o1, o2⟩
    rw [h] at hw hr
    rw [show o1 = some w from hw, show o2 = some r from hr]
  have hfwh : HandDetection.findWristAndRef ms = (some wh, some rh) := by
    rcases h : HandDetection.findWristAndRef ms with ⟨o1, o2⟩
    rw [h] at hwh hrh
    rw [show o1 = some wh from hwh, show o2 = some rh from hrh]
  have hred : normalize_hand_rotation ls =
      if r.x_scaled - w.x_scaled = 0 ∧ r.y_scaled - w.y_scaled = 0 then ls
      else ls.map (rotMap w r) := by
    unfold normalize_hand_rotation
    rw [hfw]
    exact rfl
  have hredh : HandDetection.normalize_hand_rotation ms =
      if rh.x_scaled - wh.x_scaled = 0 ∧ rh.y_scaled - wh.y_scaled = 0 then ms
      else ms.map (rotMapHD wh rh) := by
    unfold HandDetection.normalize_hand_rotation
    rw [hfwh]
    exact rfl
  constructor
  · constructor
    · intro hd
      rw [hred, if_pos hd]
    · intro hd
      refine ⟨by rw [hred, if_neg hd], fun l => ⟨rfl, rfl⟩, ?_, ?_⟩
      · show (w.x_scaled - w.x_scaled) * _ - (w.y_scaled - w.y_scaled) * _ + 1000 = 1000
        simp
      · show (w.x_scaled - w.x_scaled) * _ + (w.y_scaled - w.y_scaled) * _ + 2000 = 2000
        simp
  · constructor
    · intro hd
      rw [hredh, if_pos hd]
    · intro hd
      refine ⟨by rw [hredh, if_neg hd], fun m => ⟨rfl, rfl⟩, ?_, ?_⟩
      · show (wh.x_scaled - wh.x_scaled) * _ - (wh.y_scaled - wh.y_scaled) * _ + 1000 = 1000
        simp
      · show (wh.x_scaled - wh.x_scaled) * _ + (wh.y_scaled - wh.y_scaled) * _ + 2000 = 2000
        simp

theorem c4_witness :
    (findWristAndRef rotLs).1 = some (mkLmR 0 0 0) ∧
    (findWristAndRef rotLs).2 = some (mkLmR 9 3 4) ∧
    (HandDetection.findWristAndRef rotMs).1 = some (mkLmHD 0 0 0) ∧
    (HandDetection.findWristAndRef rotMs).2 = some (mkLmHD 9 3 4) ∧
    ¬((mkLmR 9 3 4).x_scaled - (mkLmR 0 0 0).x_scaled = 0 ∧
      (mkLmR 9 3 4).y_scaled - (mkLmR 0 0 0).y_scaled = 0) ∧
    normalize_hand_rotation rotLs = rotLs.map (rotMap (mkLmR 0 0 0) (mkLmR 9 3 4)) ∧
    (rotMap (mkLmR 0 0 0) (mkLmR 9 3 4) (mkLmR 0 0 0)).x_scaled = 1000 ∧
    (rotMap (mkLmR 0 0 0) (mkLmR 9 3 4) (mkLmR 0 0 0)).y_scaled = 2000 ∧
    HandDetection.normalize_hand_rotation rotMs =
      rotMs.map (rotMapHD (mkLmHD 0 0 0) (mkLmHD 9 3 4)) :=
  have hd : ¬((mkLmR 9 3 4).x_scaled - (mkLmR 0 0 0).x_scaled = 0 ∧
      (mkLmR 9 3 4).y_scaled - (mkLmR 0 0 0).y_scaled = 0) := by
    simp [mkLmR]
  have hdh : ¬((mkLmHD 9 3 4).x_scaled - (mkLmHD 0 0 0).x_scaled = 0 ∧
      (mkLmHD 9 3 4).y_scaled - (mkLmHD 0 0 0).y_scaled = 0) := by
    simp [mkLmHD]
  ⟨rfl, rfl, rfl, rfl, hd,
   ((c4_rotation_formula rotLs (mkLmR 0 0 0) (mkLmR 9 3 4) rotMs
      (mkLmHD 0 0 0) (mkLmHD 9 3 4) rfl rfl rfl rfl).1.2 hd).1,
   ((c4_rotation_formula rotLs (mkLmR 0 0 0) (mkLmR 9 3 4) rotMs
      (mkLmHD 0 0 0) (mkLmHD 9 3 4) rfl rfl rfl rfl).1.2 hd).2.2.1,
   ((c4_rotation_formula rotLs (mkLmR 0 0 0) (mkLmR 9 3 4) rotMs
      (mkLmHD 0 0 0) (mkLmHD 9 3 4) rfl rfl rfl rfl).1.2 hd).2.2.2,
   ((c4_rotation_formula rotLs (mkLmR 0 0 0) (mkLmR 9 3 4) rotMs
      (mkLmHD 0 0 0) (mkLmHD 9 3 4) rfl rfl rfl rfl).2.2 hdh).1⟩

theorem listMin_smul (c : ℚ) (hc : 0 ≤ c) :
    ∀ (xs : List ℚ) (x : ℚ), listMin (c * x) (xs.map fun q => c * q) = c * listMin x xs := by
  intro xs
  induction xs with
  | nil => intro x; rfl
  | cons a xs ih =>
    intro x
    have h1 : listMin (c * x) ((a :: xs).map fun q => c * q) =
        listMin (min (c * x) (c * a)) (xs.map fun q => c * q) := rfl
    rw [h1, ← (monotone_mul_left_of_nonneg hc).map_min, ih]
    rfl

theorem listMax_smul (c : ℚ) (hc : 0 ≤ c) :
    ∀ (xs : List ℚ) (x : ℚ), listMax (c * x) (xs.map fun q => c * q) = c * listMax x xs := by
  intro xs
  induction xs with
  | nil => intro x; rfl
  | cons a xs ih =>
    intro x
    have h1 : listMax (c * x) ((a :: xs).map fun q => c * q) =
        listMax (max (c * x) (c * a)) (xs.map fun q => c * q) := rfl
    rw [h1, ← (monotone_mul_left_of_nonneg hc).map_max, ih]
    rfl

theorem rawMinX_double (l0 : MPLandmark) (rest : List MPLandmark) (W : ℚ) :
    rawMinX l0 rest (2 * W) = 2 * rawMinX l0 rest W := by
  unfold rawMinX
  have hmap : (rest.map fun l => l.x * (2 * W)) =
      (rest.map fun l => l.x * W).map fun q => (2 : ℚ) * q := by
    rw [List.map_map]
    exact List.map_congr_left fun l _ => by dsimp only [Function.comp_apply]; ring
  rw [hmap, show l0.x * (2 * W) = 2 * (l0.x * W) by ring]
  exact listMin_smul 2 (by norm_num) _ _

theorem rawMaxX_double (l0 : MPLandmark) (rest : List MPLandmark) (W : ℚ) :
    rawMaxX l0 rest (2 * W) = 2 * rawMaxX l0 rest W := by
  unfold rawMaxX
  have hmap : (rest.map fun l => l.x * (2 * W)) =
      (rest.map fun l => l.x * W).map fun q => (2 : ℚ) * q := by
    rw [List.map_map]
    exact List.map_congr_left fun l _ => by dsimp only [Function.comp_apply]; ring
  rw [hmap, show l0.x * (2 * W) = 2 * (l0.x * W) by ring]
  exact listMax_smul 2 (by norm_num) _ _

theorem rawMinY_double (l0 : MPLandmark) (rest : List MPLandmark) (H : ℚ) :
    rawMinY l0 rest (2 * H) = 2 * rawMinY l0 rest H := by
  unfold rawMinY
  have hmap : (rest.map fun l => l.y * (2 * H)) =
      (rest.map fun l => l.y * H).map fun q => (2 : ℚ) * q := by
    rw [List.map_map]
    exact List.map_congr_left fun l _ => by dsimp only [Function.comp_apply]; ring
  rw [hmap, show l0.y * (2 * H) = 2 * (l0.y * H) by ring]
  exact listMin_smul 2 (by norm_num) _ _

theorem rawMaxY_double (l0 : MPLandmark) (rest : List MPLandmark) (H : ℚ) :
    rawMaxY l0 rest (2 * H) = 2 * rawMaxY l0 rest H := by
  unfold rawMaxY
  have hmap : (rest.map fun l => l.y * (2 * H)) =
      (rest.map fun l => l.y * H).map fun q => (2 : ℚ) * q := by
    rw [List.map_map]
    exact List.map_congr_left fun l _ => by dsimp only [Function.comp_apply]; ring
  rw [hmap, show l0.y * (2 * H) = 2 * (l0.y * H) by ring]
  exact listMax_smul 2 (by norm_num) _ _

theorem xRange_double (l0 : MPLandmark) (rest : List MPLandmark) (W : ℚ) :
    xRange l0 rest (2 * W) = 2 * xRange l0 rest W := by
  unfold xRange
  rw [rawMaxX_double, rawMinX_double]
  ring

theorem yRange_double (l0 : MPLandmark) (rest : List MPLandmark) (H : ℚ) :
    yRange l0 rest (2 * H) = 2 * yRange l0 rest H := by
  unfold yRange
  rw [rawMaxY_double, rawMinY_double]
  ring

theorem paddingX_double (l0 : MPLandmark) (rest : List MPLandmark) (W : ℚ)
    (hx : 0 < xRange l0 rest W) :
    paddingX l0 rest (2 * W) = 2 * paddingX l0 rest W := by
  unfold paddingX
  rw [xRange_double, if_pos (by linarith), if_pos hx]
  ring

theorem paddingY_double (l0 : MPLandmark) (rest : List MPLandmark) (H : ℚ)
    (hy : 0 < yRange l0 rest H) :
    paddingY l0 rest (2 * H) = 2 * paddingY l0 rest H := by
  unfold paddingY
  rw [yRange_double, if_pos (by linarith), if_pos hy]
  ring

theorem padMinX_double (l0 : MPLandmark) (rest : List MPLandmark) (W : ℚ)
    (hx : 0 < xRange l0 rest W) :
    padMinX l0 rest (2 * W) = 2 * padMinX l0 rest W := by
  unfold padMinX
  rw [rawMinX_double, paddingX_double l0 rest W hx]
  ring

theorem padMaxX_double (l0 : MPLandmark) (rest : List MPLandmark) (W : ℚ)
    (hx : 0 < xRange l0 rest W) :
    padMaxX l0 rest (2 * W) = 2 * padMaxX l0 rest W := by
  unfold padMaxX
  rw [rawMaxX_double, paddingX_double l0 rest W hx]
  ring

theorem padMinY_double (l0 : MPLandmark) (rest : List MPLandmark) (H : ℚ)
    (hy : 0 < yRange l0 rest H) :
    padMinY l0 rest (2 * H) = 2 * padMinY l0 rest H := by
  unfold padMinY
  rw [rawMinY_double, paddingY_double l0 rest H hy]
  ring

theorem padMaxY_double (l0 : MPLandmark) (rest : List MPLandmark) (H : ℚ)
    (hy : 0 < yRange l0 rest H) :
    padMaxY l0 rest (2 * H) = 2 * padMaxY l0 rest H := by
  unfold padMaxY
  rw [rawMaxY_double, paddingY_double l0 rest H hy]
  ring

theorem padWidth_pos (l0 : MPLandmark) (rest : List MPLandmark) (W : ℚ)
    (hx : 0 < xRange l0 rest W) :
    0 < padMaxX l0 rest W - padMinX l0 rest W := by
  unfold padMaxX padMinX paddingX
  rw [if_pos hx]
  unfold xRange at hx ⊢
  linarith

theorem padHeight_pos (l0 : MPLandmark) (rest : List MPLandmark) (H : ℚ)
    (hy : 0 < yRange l0 rest H) :
    0 < padMaxY l0 rest H - padMinY l0 rest H := by
  unfold padMaxY padMinY paddingY
  rw [if_pos hy]
  unfold yRange at hy ⊢
  linarith

theorem scaleX_double (l0 : MPLandmark) (rest : List MPLandmark) (W : ℚ)
    (hx : 0 < xRange l0 rest W) :
    scaleX l0 rest (2 * W) = scaleX l0 rest W / 2 := by
  unfold scaleX
  rw [padMaxX_double l0 rest W hx, padMinX_double l0 rest W hx]
  have hpos : 0 < padMaxX l0 rest W - padMinX l0 rest W := padWidth_pos l0 rest W hx
  rw [show 2 * padMaxX l0 rest W - 2 * padMinX l0 rest W =
      2 * (padMaxX l0 rest W - padMinX l0 rest W) by ring]
  rw [if_pos (by linarith), if_pos hpos, div_div, mul_comm]

theorem scaleY_double (l0 : MPLandmark) (rest : List MPLandmark) (H : ℚ)
    (hy : 0 < yRange l0 rest H) :
    scaleY l0 rest (2 * H) = scaleY l0 rest H / 2 := by
  unfold scaleY
  rw [padMaxY_double l0 rest H hy, padMinY_double l0 rest H hy]
  have hpos : 0 < padMaxY l0 rest H - padMinY l0 rest H := padHeight_pos l0 rest H hy
  rw [show 2 * padMaxY l0 rest H - 2 * padMinY l0 rest H =
      2 * (padMaxY l0 rest H - padMinY l0 rest H) by ring]
  rw [if_pos (by linarith), if_pos hpos, div_div, mul_comm]

theorem scaleFactor_double (l0 : MPLandmark) (rest : List MPLandmark) (W H : ℚ)
    (hx : 0 < xRange l0 rest W) (hy : 0 < yRange l0 rest H) :
    scaleFactor l0 rest (2 * W) (2 * H) = scaleFactor l0 rest W H / 2 := by
  unfold scaleFactor
  rw [scaleX_double l0 rest W hx, scaleY_double l0 rest H hy,
    min_div_div_right (by norm_num : (0 : ℚ) ≤ 2)]

theorem offsetX_double (l0 : MPLandmark) (rest : List MPLandmark) (W H : ℚ)
    (hx : 0 < xRange l0 rest W) (hy : 0 < yRange l0 rest H) :
    offsetX l0 rest (2 * W) (2 * H) = offsetX l0 rest W H := by
  unfold offsetX
  rw [padMaxX_double l0 rest W hx, padMinX_double l0 rest W hx,
    scaleFactor_double l0 rest W H hx hy]
  ring

theorem offsetY_double (l0 : MPLandmark) (rest : List MPLandmark) (W H : ℚ)
    (hx : 0 < xRange l0 rest W) (hy : 0 < yRange l0 rest H) :
    offsetY l0 rest (2 * W) (2 * H) = offsetY l0 rest W H := by
  unfold offsetY
  rw [padMaxY_double l0 rest H hy, padMinY_double l0 rest H hy,
    scaleFactor_double l0 rest W H hx hy]
  ring

/-- C8 (scale invariance): for a non-degenerate landmark set (positive
raw x and y ranges), doubling the image resolution — which doubles every
raw pixel coordinate fed to `calculate_edge_to_edge_scaling` and to the
per-landmark scaling map of `process_landmarks` — leaves the scaled
planar coordinates of every landmark exactly unchanged in exact
arithmetic. -/
theorem c8_scale_invariance (l0 : MPLandmark) (rest : List MPLandmark) (W H : ℚ)
    (hx : 0 < xRange l0 rest W) (hy : 0 < yRange l0 rest H) :
    ∀ l ∈ l0 :: rest,
      (applyScaling (calculate_edge_to_edge_scaling (l0 :: rest) (2 * W) (2 * H))
          (l.x * (2 * W)) (l.y * (2 * H)) (l.z * (2 * W))).1 =
        (applyScaling (calculate_edge_to_edge_scaling (l0 :: rest) W H)
          (l.x * W) (l.y * H) (l.z * W)).1 ∧
      (applyScaling (calculate_edge_to_edge_scaling (l0 :: rest) (2 * W) (2 * H))
          (l.x * (2 * W)) (l.y * (2 * H)) (l.z * (2 * W))).2.1 =
        (applyScaling (calculate_edge_to_edge_scaling (l0 :: rest) W H)
          (l.x * W) (l.y * H) (l.z * W)).2.1 := by
  intro l hl
  constructor
  · show (l.x * (2 * W) - padMinX l0 rest (2 * W)) * scaleFactor l0 rest (2 * W) (2 * H) +
        offsetX l0 rest (2 * W) (2 * H) =
      (l.x * W - padMinX l0 rest W) * scaleFactor l0 rest W H + offsetX l0 rest W H
    rw [padMinX_double l0 rest W hx, scaleFactor_double l0 rest W H hx hy,
      offsetX_double l0 rest W H hx hy]
    ring
  · show (l.y * (2 * H) - padMinY l0 rest (2 * H)) * scaleFactor l0 rest (2 * W) (2 * H) +
        offsetY l0 rest (2 * W) (2 * H) =
      (l.y * H - padMinY l0 rest H) * scaleFactor l0 rest W H + offsetY l0 rest W H
    rw [padMinY_double l0 rest H hy, scaleFactor_double l0 rest W H hx hy,
      offsetY_double l0 rest W H hx hy]
    ring

theorem mpDemo_xRange_pos : 0 < xRange mpDemo0 mpDemoRest 1 := by
  norm_num [xRange, rawMaxX, rawMinX, listMax, listMin, mpDemo0, mpDemoRest,
    List.foldl_cons, List.foldl_nil]

theorem mpDemo_yRange_pos : 0 < yRange mpDemo0 mpDemoRest 1 := by
  norm_num [yRange, rawMaxY, rawMinY, listMax, listMin, mpDemo0, mpDemoRest,
    List.foldl_cons, List.foldl_nil]

theorem c8_witness :
    0 < xRange mpDemo0 mpDemoRest 1 ∧ 0 < yRange mpDemo0 mpDemoRest 1 ∧
    ((applyScaling (calculate_edge_to_edge_scaling (mpDemo0 :: mpDemoRest) (2 * 1) (2 * 1))
        (mpDemo0.x * (2 * 1)) (mpDemo0.y * (2 * 1)) (mpDemo0.z * (2 * 1))).1 =
      (applyScaling (calculate_edge_to_edge_scaling (mpDemo0 :: mpDemoRest) 1 1)
        (mpDemo0.x * 1) (mpDemo0.y * 1) (mpDemo0.z * 1)).1 ∧
    (applyScaling (calculate_edge_to_edge_scaling (mpDemo0 :: mpDemoRest) (2 * 1) (2 * 1))
        (mpDemo0.x * (2 * 1)) (mpDemo0.y * (2 * 1)) (mpDemo0.z * (2 * 1))).2.1 =
      (applyScaling (calculate_edge_to_edge_scaling (mpDemo0 :: mpDemoRest) 1 1)
        (mpDemo0.x * 1) (mpDemo0.y * 1) (mpDemo0.z * 1)).2.1) :=
  ⟨mpDemo_xRange_pos, mpDemo_yRange_pos,
   c8_scale_invariance mpDemo0 mpDemoRest 1 1 mpDemo_xRange_pos mpDemo_yRange_pos
     mpDemo0 (List.mem_cons_self mpDemo0 mpDemoRest)⟩

/-- C5: on the tracker path (`calculate_edge_to_edge_scaling`) and on the
`hand_detection.py` path, the box stored in the scaling frame is the raw
min/max box expanded on both sides by 10% of each axis's range (for
positive ranges), and the scale factor is `min(2000/width, 2000/height)`
of that padded box.  On the API path of `main.py`, however, no padding is
added: at the raw corner points `(0,0)` and `(100,100)` the API computes
scale factor `2000/100 = 20` and stores the unpadded box `[0, 100]`,
while the padded-box rule applied to the same raw coordinates gives
`2000/120 = 50/3` — so the claim's "every call path" fails on the API
path. -/
theorem c5_padding_and_api_divergence :
    (∀ (l0 : MPLandmark) (rest : List MPLandmark) (W H : ℚ) (si : ScalingInfo),
      calculate_edge_to_edge_scaling (l0 :: rest) W H = some si →
      0 < xRange l0 rest W → 0 < yRange l0 rest H →
      si.min_x = rawMinX l0 rest W - xRange l0 rest W * (1 / 10) ∧
      si.max_x = rawMaxX l0 rest W + xRange l0 rest W * (1 / 10) ∧
      si.min_y = rawMinY l0 rest H - yRange l0 rest H * (1 / 10) ∧
      si.max_y = rawMaxY l0 rest H + yRange l0 rest H * (1 / 10) ∧
      si.scale_factor =
        min (2000 / (si.max_x - si.min_x)) (2000 / (si.max_y - si.min_y))) ∧
    (∀ (x0 y0 w h : ℚ) (xs ys : List ℚ),
      0 < listMax x0 xs - listMin x0 xs → 0 < listMax y0 ys - listMin y0 ys →
      (HandDetection.scalingInfo (x0 :: xs) (y0 :: ys) w h).min_x =
        listMin x0 xs - (listMax x0 xs - listMin x0 xs) * (1 / 10) ∧
      (HandDetection.scalingInfo (x0 :: xs) (y0 :: ys) w h).max_x =
        listMax x0 xs + (listMax x0 xs - listMin x0 xs) * (1 / 10) ∧
      (HandDetection.scalingInfo (x0 :: xs) (y0 :: ys) w h).min_y =
        listMin y0 ys - (listMax y0 ys - listMin y0 ys) * (1 / 10) ∧
      (HandDetection.scalingInfo (x0 :: xs) (y0 :: ys) w h).max_y =
        listMax y0 ys + (listMax y0 ys - listMin y0 ys) * (1 / 10) ∧
      (HandDetection.scalingInfo (x0 :: xs) (y0 :: ys) w h).scale_factor =
        min (2000 / ((HandDetection.scalingInfo (x0 :: xs) (y0 :: ys) w h).max_x -
              (HandDetection.scalingInfo (x0 :: xs) (y0 :: ys) w h).min_x))
            (2000 / ((HandDetection.scalingInfo (x0 :: xs) (y0 :: ys) w h).max_y -
              (HandDetection.scalingInfo (x0 :: xs) (y0 :: ys) w h).min_y))) ∧
    (apiScalingInfo apiDemo).map ScalingInfo.scale_factor = some 20 ∧
    (apiScalingInfo apiDemo).map ScalingInfo.min_x = some 0 ∧
    (apiScalingInfo apiDemo).map ScalingInfo.max_x = some 100 ∧
    (calculate_edge_to_edge_scaling (mpDemo0 :: mpDemoRest) 1 1).map
      ScalingInfo.scale_factor = some (50 / 3) ∧
    (20 : ℚ) ≠ 50 / 3 := by
  refine ⟨?_, ?_, ?_, ?_, ?_, ?_, by norm_num⟩
  · intro l0 rest W H si hsi hx hy
    have hsi2 : ScalingInfo.mk (padMinX l0 rest W) (padMaxX l0 rest W)
        (padMinY l0 rest H) (padMaxY l0 rest H) (scaleFactor l0 rest W H)
        (offsetX l0 rest W H) (offsetY l0 rest W H) 2000 = si := by
      have h := hsi
      unfold calculate_edge_to_edge_scaling at h
      exact Option.some.inj h
    subst hsi2
    refine ⟨?_, ?_, ?_, ?_, ?_⟩
    · show padMinX l0 rest W = rawMinX l0 rest W - xRange l0 rest W * (1 / 10)
      unfold padMinX paddingX
      rw [if_pos hx]
    · show padMaxX l0 rest W = rawMaxX l0 rest W + xRange l0 rest W * (1 / 10)
      unfold padMaxX paddingX
      rw [if_pos hx]
    · show padMinY l0 rest H = rawMinY l0 rest H - yRange l0 rest H * (1 / 10)
      unfold padMinY paddingY
      rw [if_pos hy]
    · show padMaxY l0 rest H = rawMaxY l0 rest H + yRange l0 rest H * (1 / 10)
      unfold padMaxY paddingY
      rw [if_pos hy]
    · show scaleFactor l0 rest W H =
        min (2000 / (padMaxX l0 rest W - padMinX l0 rest W))
            (2000 / (padMaxY l0 rest H - padMinY l0 rest H))
      unfold scaleFactor scaleX scaleY
      rw [if_pos (padWidth_pos l0 rest W hx), if_pos (padHeight_pos l0 rest H hy)]
  · intro x0 y0 w h xs ys hx hy
    refine ⟨rfl, rfl, rfl, rfl, ?_⟩
    show min (if 0 < (listMax x0 xs + (listMax x0 xs - listMin x0 xs) * (1 / 10)) -
          (listMin x0 xs - (listMax x0 xs - listMin x0 xs) * (1 / 10)) then
        2000 / ((listMax x0 xs + (listMax x0 xs - listMin x0 xs) * (1 / 10)) -
          (listMin x0 xs - (listMax x0 xs - listMin x0 xs) * (1 / 10))) else 1)
      (if 0 < (listMax y0 ys + (listMax y0 ys - listMin y0 ys) * (1 / 10)) -
          (listMin y0 ys - (listMax y0 ys - listMin y0 ys) * (1 / 10)) then
        2000 / ((listMax y0 ys + (listMax y0 ys - listMin y0 ys) * (1 / 10)) -
          (listMin y0 ys - (listMax y0 ys - listMin y0 ys) * (1 / 10))) else 1) = _
    rw [if_pos (by linarith), if_pos (by linarith)]
    exact rfl
  · norm_num [apiScalingInfo, apiDemo, mkLm, listMin, listMax,
      List.foldl_cons, List.foldl_nil]
  · norm_num [apiScalingInfo, apiDemo, mkLm, listMin, listMax,
      List.foldl_cons, List.foldl_nil]
  · norm_num [apiScalingInfo, apiDemo, mkLm, listMin, listMax,
      List.foldl_cons, List.foldl_nil]
  · norm_num [calculate_edge_to_edge_scaling, scaleFactor, scaleX, scaleY,
      padMaxX, padMinX, padMaxY, padMinY, paddingX, paddingY, xRange, yRange,
      rawMinX, rawMaxX, rawMinY, rawMaxY, listMin, listMax, mpDemo0, mpDemoRest,
      List.foldl_cons, List.foldl_nil]

theorem hdDemo_range_pos : 0 < listMax 0 [(100 : ℚ)] - listMin 0 [(100 : ℚ)] := by
  norm_num [listMax, listMin, List.foldl_cons, List.foldl_nil]

theorem c5_witness :
    0 < xRange mpDemo0 mpDemoRest 1 ∧ 0 < yRange mpDemo0 mpDemoRest 1 ∧
    calculate_edge_to_edge_scaling (mpDemo0 :: mpDemoRest) 1 1 =
      some (ScalingInfo.mk (padMinX mpDemo0 mpDemoRest 1) (padMaxX mpDemo0 mpDemoRest 1)
        (padMinY mpDemo0 mpDemoRest 1) (padMaxY mpDemo0 mpDemoRest 1)
        (scaleFactor mpDemo0 mpDemoRest 1 1) (offsetX mpDemo0 mpDemoRest 1 1)
        (offsetY mpDemo0 mpDemoRest 1 1) 2000) ∧
    padMinX mpDemo0 mpDemoRest 1 =
      rawMinX mpDemo0 mpDemoRest 1 - xRange mpDemo0 mpDemoRest 1 * (1 / 10) ∧
    0 < listMax 0 [(100 : ℚ)] - listMin 0 [(100 : ℚ)] ∧
    (HandDetection.scalingInfo (0 :: [100]) (0 :: [100]) 1 1).min_x =
      listMin 0 [(100 : ℚ)] - (listMax 0 [(100 : ℚ)] - listMin 0 [(100 : ℚ)]) * (1 / 10) :=
  ⟨mpDemo_xRange_pos, mpDemo_yRange_pos, rfl,
   ((c5_padding_and_api_divergence).1 mpDemo0 mpDemoRest 1 1
     (ScalingInfo.mk (padMinX mpDemo0 mpDemoRest 1) (padMaxX mpDemo0 mpDemoRest 1)
        (padMinY mpDemo0 mpDemoRest 1) (padMaxY mpDemo0 mpDemoRest 1)
        (scaleFactor mpDemo0 mpDemoRest 1 1) (offsetX mpDemo0 mpDemoRest 1 1)
        (offsetY mpDemo0 mpDemoRest 1 1) 2000) rfl
     mpDemo_xRange_pos mpDemo_yRange_pos).1,
   hdDemo_range_pos,
   ((c5_padding_and_api_divergence).2.1 0 0 1 1 [100] [100]
     hdDemo_range_pos hdDemo_range_pos).1⟩
